import Mathlib

/-
Verification development for the laser-cut box generator
(Main_Box: constants.py, fractal_sierpinski.py, generate.py, validate.py).

Conventions of the shallow embedding:
- Python floats are modelled as exact rationals (ℚ).  All geometry is exact.
- Python exceptions are modelled by an Except monad over an explicit error
  type (AttributeError / ValueError / KeyError carrying the message or the
  missing attribute name).
- SVG path data strings ("M x y L x y ... Z") are modelled by the list of
  their vertices, in order; the trailing Z (close-path command) is implicit
  in the path primitive.  Numeric formatting (".4f") is a rendering concern
  and is not modelled: coordinates are kept exact.
- Rendering attributes (stroke colour, stroke width, font family constants)
  that do not affect geometry are kept only where a claim mentions them.
- The final serialization step to_svg is the external Renderer in the spec;
  generate_svg here returns the piece list and placements that to_svg
  would serialize, or the error raised before that point.
-/

/-- Python exception values that the embedded code can raise:
AttributeError (a missing module attribute, carrying the attribute name),
ValueError (carrying the message), KeyError (carrying the key). -/
inductive PyError where
  | attributeError (attr : String)
  | valueError (msg : String)
  | keyError (key : String)
deriving DecidableEq, Repr

/-! ## constants.py -/

/-- Inches to millimetres conversion factor (constants.py INCH_TO_MM). -/
def INCH_TO_MM : ℚ := 25.4

/-- Fixed material thickness in mm (constants.py T_MM). -/
def T_MM : ℚ := 3.0

/-- Default kerf in mm (constants.py KERF_MM_DEFAULT). -/
def KERF_MM_DEFAULT : ℚ := 0.10

/-- Sheet width in mm (constants.py SHEET_W_MM = 12 inches). -/
def SHEET_W_MM : ℚ := 12.0 * INCH_TO_MM

/-- Sheet height in mm (constants.py SHEET_H_MM = 18 inches). -/
def SHEET_H_MM : ℚ := 18.0 * INCH_TO_MM

/-- Packing gap between parts on the sheet (constants.py PART_GAP_MM). -/
def PART_GAP_MM : ℚ := 2.0

/-- Safety margin from panel edges (constants.py MIN_EDGE_MARGIN_MM). -/
def MIN_EDGE_MARGIN_MM : ℚ := max (2 * T_MM) 6.0

/-- Engraving safe margin inside each wall (constants.py ENGRAVE_MARGIN_MM). -/
def ENGRAVE_MARGIN_MM : ℚ := max (2 * T_MM) 6.0

/-- Minimum gap between a divider and a wall or another divider
(constants.py DIVIDER_MIN_GAP_MM). -/
def DIVIDER_MIN_GAP_MM : ℚ := max (2 * T_MM) 6.0

/-- Physical clearance added to divider slots (constants.py). -/
def DIVIDER_SLOT_CLEARANCE_MM : ℚ := 0.08

/-- Physical clearance added to the nut pocket (constants.py). -/
def NUT_POCKET_CLEARANCE_MM : ℚ := 0.05

/-- Screw clearance hole diameter in mm (constants.py). -/
def SCREW_HOLE_DIAMETER_MM : ℚ := 2.50

/-- Physical clearance added to tab slots (constants.py TAB_SLOT_CLEARANCE_MM). -/
def TAB_SLOT_CLEARANCE_MM : ℚ := 0.10

/-- Design width of each tab along an edge (constants.py TAB_WIDTH_MM). -/
def TAB_WIDTH_MM : ℚ := 12.0

/-- Square nut width in inches (constants.py NUT_WIDTH_IN). -/
def NUT_WIDTH_IN : ℚ := 0.188

/-- Square nut width in mm (constants.py NUT_WIDTH_MM). -/
def NUT_WIDTH_MM : ℚ := NUT_WIDTH_IN * INCH_TO_MM

/-- Kerf-aware draw size for internal voids: holes, slots, pockets
(constants.py internal_cut_draw_dim). -/
def internal_cut_draw_dim (target_physical_mm kerf_mm : ℚ) : ℚ :=
  target_physical_mm - kerf_mm

/-- Kerf-aware draw size for external features such as tabs
(constants.py external_cut_draw_dim). -/
def external_cut_draw_dim (target_physical_mm kerf_mm : ℚ) : ℚ :=
  target_physical_mm + kerf_mm

/-- Desired physical divider slot width (constants.py divider_slot_target_physical;
the kerf argument of the source is unused there, kept for fidelity). -/
def divider_slot_target_physical (_kerf_mm : ℚ) : ℚ :=
  T_MM + DIVIDER_SLOT_CLEARANCE_MM

/-- Drawn divider slot width (constants.py divider_slot_draw_w). -/
def divider_slot_draw_w (kerf_mm : ℚ) : ℚ :=
  internal_cut_draw_dim (divider_slot_target_physical kerf_mm) kerf_mm

/-- Desired physical nut pocket width (constants.py nut_pocket_target_physical). -/
def nut_pocket_target_physical : ℚ := NUT_WIDTH_MM + NUT_POCKET_CLEARANCE_MM

/-- Drawn nut pocket width (constants.py nut_pocket_draw_w). -/
def nut_pocket_draw_w (kerf_mm : ℚ) : ℚ :=
  internal_cut_draw_dim nut_pocket_target_physical kerf_mm

/-- Drawn screw clearance hole diameter (constants.py screw_hole_draw_d). -/
def screw_hole_draw_d (kerf_mm : ℚ) : ℚ :=
  internal_cut_draw_dim SCREW_HOLE_DIAMETER_MM kerf_mm

/-- Desired physical slot width for a floor tab (constants.py tab_slot_target_physical). -/
def tab_slot_target_physical : ℚ := T_MM + TAB_SLOT_CLEARANCE_MM

/-- Drawn slot width for wall bottom slots (constants.py tab_slot_draw_w). -/
def tab_slot_draw_w (kerf_mm : ℚ) : ℚ :=
  internal_cut_draw_dim tab_slot_target_physical kerf_mm

/-- Drawn slot depth upward from the wall bottom edge
(constants.py wall_bottom_slot_draw_depth). -/
def wall_bottom_slot_draw_depth (kerf_mm : ℚ) : ℚ :=
  internal_cut_draw_dim T_MM kerf_mm

/-- Drawn tab length protruding from the floor base outline
(constants.py floor_tab_len_draw). -/
def floor_tab_len_draw (kerf_mm : ℚ) : ℚ :=
  external_cut_draw_dim T_MM kerf_mm

/-- Divider slot distance kept below the wall top edge (constants.py). -/
def DIVIDER_SLOT_TOP_CAP_MM : ℚ := MIN_EDGE_MARGIN_MM

/-- Divider slot bottom margin (constants.py DIVIDER_SLOT_BOTTOM_MARGIN_MM). -/
def DIVIDER_SLOT_BOTTOM_MARGIN_MM : ℚ := MIN_EDGE_MARGIN_MM

/-- Default engraved text font size in mm (constants.py TEXT_FONT_SIZE_MM). -/
def TEXT_FONT_SIZE_MM : ℚ := 6.0

/-- Engraved text font family (constants.py TEXT_FONT_FAMILY). -/
def TEXT_FONT_FAMILY : String := "Arial"

/-- Engraved text anchor mode (constants.py TEXT_ANCHOR). -/
def TEXT_ANCHOR : String := "middle"

/-- Fractal recursion depth constant (constants.py FRACTAL_SIERPINSKI_DEPTH;
note that generate.py uses a literal depth 4 instead of this constant). -/
def FRACTAL_SIERPINSKI_DEPTH : ℕ := 5

/-- Extra inset inside the engraving-safe region for the fractal
(constants.py FRACTAL_INSET_MM; generate.py uses T_MM instead). -/
def FRACTAL_INSET_MM : ℚ := 2.0

/-- Extra padding around cutouts for fractal keepouts
(constants.py FRACTAL_KEEPOUT_PAD_MM; unused by generate.py). -/
def FRACTAL_KEEPOUT_PAD_MM : ℚ := 1.0

/-! ### The finger-joint helpers generate.py expects from constants.py

generate.py reads C.finger_tab_depth_draw, C.finger_feature_w_draw,
C.finger_pocket_depth_draw and C.T_SLOT_STEM_LENGTH_MM from the imported
constants module.  constants.py defines none of these attributes, so each
access raises AttributeError at runtime.  We model the constants module
interface as a record of optional bindings: the environment read from the
actual source file has all four bindings absent, and a second, spec-modelled
environment supplies values derived from the design document so that the
intended pipeline downstream of the missing helpers can also be analysed. -/

/-- Bindings of the four attributes that generate.py reads from the constants
module but that constants.py does not define.  A field holds none when the
attribute is missing (an access then raises AttributeError). -/
structure ConstantsEnv where
  finger_tab_depth_draw : Option (ℚ → ℚ)
  finger_feature_w_draw : Option (ℚ → ℚ)
  finger_pocket_depth_draw : Option (ℚ → ℚ)
  T_SLOT_STEM_LENGTH_MM : Option ℚ

/-- The constants module exactly as the repository ships it: constants.py
defines none of the four finger-joint/T-slot attributes that generate.py
reads, so every binding is absent. -/
def C_actual : ConstantsEnv :=
  { finger_tab_depth_draw := none
    finger_feature_w_draw := none
    finger_pocket_depth_draw := none
    T_SLOT_STEM_LENGTH_MM := none }

/-- Modelled from the spec: drawn finger tab depth.  Missing from
constants.py; section 4.3 of the design document says the tab depth equals
the kerf-adjusted material thickness, an external protrusion, hence
external_cut_draw_dim T_MM kerf. -/
def finger_tab_depth_draw_spec (kerf_mm : ℚ) : ℚ :=
  external_cut_draw_dim T_MM kerf_mm

/-- Modelled from the spec: drawn finger feature width along an edge.
Missing from constants.py; the design document places features of
kerf-adjusted width w along each edge and constants.py documents
TAB_WIDTH_MM as the design intent for how wide each tab is along the edge,
an external feature, hence external_cut_draw_dim TAB_WIDTH_MM kerf. -/
def finger_feature_w_draw_spec (kerf_mm : ℚ) : ℚ :=
  external_cut_draw_dim TAB_WIDTH_MM kerf_mm

/-- Modelled from the spec: drawn finger pocket depth.  Missing from
constants.py; section 4.3 says the pocket depth is the internal-void
kerf-adjusted equivalent of the same thickness target, hence
internal_cut_draw_dim T_MM kerf. -/
def finger_pocket_depth_draw_spec (kerf_mm : ℚ) : ℚ :=
  internal_cut_draw_dim T_MM kerf_mm

/-- Modelled from the spec: the fixed T-slot stem length in mm.  Missing from
constants.py; section 4.4 only says the stem is a channel of fixed length
(clamped when material runs out), giving no numeric value, so a
representative fixed value is used.  No claim in this development depends on
the value chosen. -/
def T_SLOT_STEM_LENGTH_spec : ℚ := 6.0

/-- The spec-modelled constants module: the four missing attributes are
supplied with the values modelled from the design document. -/
def C_spec : ConstantsEnv :=
  { finger_tab_depth_draw := some finger_tab_depth_draw_spec
    finger_feature_w_draw := some finger_feature_w_draw_spec
    finger_pocket_depth_draw := some finger_pocket_depth_draw_spec
    T_SLOT_STEM_LENGTH_MM := some T_SLOT_STEM_LENGTH_spec }

/-- Python attribute access on the constants module: returns the binding when
it exists and raises AttributeError naming the attribute otherwise. -/
def C_getattr {α : Type} (binding : Option α) (attr : String) : Except PyError α :=
  match binding with
  | some v => Except.ok v
  | none => Except.error (PyError.attributeError attr)

/-! ## fractal_sierpinski.py -/

/-- A 2D point, modelling the Python pair tuple. -/
abbrev Pt : Type := ℚ × ℚ

/-- Axis-aligned rectangle (fractal_sierpinski.py class Rect). -/
structure FractalRect where
  x : ℚ
  y : ℚ
  w : ℚ
  h : ℚ
deriving DecidableEq, Repr

/-- Rect.inset: shrink the rectangle by m on every side, clamping the size
at zero (fractal_sierpinski.py Rect.inset). -/
def FractalRect.inset (r : FractalRect) (m : ℚ) : FractalRect :=
  { x := r.x + m, y := r.y + m
    w := max 0 (r.w - 2 * m), h := max 0 (r.h - 2 * m) }

/-- Strict overlap test between two rectangles
(fractal_sierpinski.py rects_intersect). -/
def rects_intersect (a b : FractalRect) : Bool :=
  decide (¬ (a.x + a.w ≤ b.x ∨ b.x + b.w ≤ a.x ∨ a.y + a.h ≤ b.y ∨ b.y + b.h ≤ a.y))

/-- Midpoint of two points (fractal_sierpinski.py _mid). -/
def _mid (p q : Pt) : Pt := ((p.1 + q.1) / 2, (p.2 + q.2) / 2)

/-- A triangle given by its three corner points. -/
abbrev Tri : Type := Pt × Pt × Pt

/-- Axis-aligned bounding box of a triangle (fractal_sierpinski.py _triangle_bbox). -/
def _triangle_bbox (t : Tri) : FractalRect :=
  { x := min (min t.1.1 t.2.1.1) t.2.2.1
    y := min (min t.1.2 t.2.1.2) t.2.2.2
    w := max (max t.1.1 t.2.1.1) t.2.2.1 - min (min t.1.1 t.2.1.1) t.2.2.1
    h := max (max t.1.2 t.2.1.2) t.2.2.2 - min (min t.1.2 t.2.1.2) t.2.2.2 }

/-- Path data of a triangle (fractal_sierpinski.py _triangle_to_path).  The
source formats the string "M a L b L c Z"; the embedding keeps the vertex
list, the closing Z being implicit. -/
def _triangle_to_path (t : Tri) : List Pt := [t.1, t.2.1, t.2.2]

/-- Rational model of the Python float math.sqrt(3.0) (its shortest decimal
representation); fractal_sierpinski.py computes with this constant. -/
def sqrt3 : ℚ := 1.7320508075688772

/-- Fit an equilateral triangle inside a rectangle, centred, returning
(top apex, bottom left, bottom right)
(fractal_sierpinski.py _equilateral_triangle_in_rect). -/
def _equilateral_triangle_in_rect (rect : FractalRect) : Tri :=
  if rect.w ≤ 0 ∨ rect.h ≤ 0 then
    ((rect.x, rect.y), (rect.x, rect.y), (rect.x, rect.y))
  else
    let side := min rect.w (rect.h * 2 / sqrt3)
    let tri_h := side * sqrt3 / 2
    let cx := rect.x + rect.w / 2
    let cy := rect.y + rect.h / 2
    ((cx, cy - tri_h / 2), (cx - side / 2, cy + tri_h / 2), (cx + side / 2, cy + tri_h / 2))

/-- Recursive subdivision collecting leaf triangles in depth-first order
(the inner function rec of fractal_sierpinski.py sierpinski_leaf_triangles). -/
def sierpinski_rec (a b c : Pt) : ℕ → List Tri
  | 0 => [(a, b, c)]
  | d + 1 =>
    let ab := _mid a b
    let ac := _mid a c
    let bc := _mid b c
    sierpinski_rec a ab ac d ++ sierpinski_rec ab b bc d ++ sierpinski_rec ac bc c d

/-- Leaf triangles of the Sierpinski triangle fitted to rect after an extra
inset (fractal_sierpinski.py sierpinski_leaf_triangles).  The Python depth
argument is an int used only through the basecase test d <= 0, so ℕ is a
faithful domain for the depths d ≥ 0 the claims quantify over. -/
def sierpinski_leaf_triangles (rect : FractalRect) (depth : ℕ) (inset : ℚ) : List Tri :=
  let r := rect.inset inset
  let t := _equilateral_triangle_in_rect r
  sierpinski_rec t.1 t.2.1 t.2.2 depth

/-- Generate Sierpinski leaf triangles and drop any triangle whose bounding
box intersects a keepout; emit the paths of the surviving ones
(fractal_sierpinski.py sierpinski_paths_clipped_by_keepouts). -/
def sierpinski_paths_clipped_by_keepouts (rect : FractalRect) (depth : ℕ)
    (inset : ℚ) (keepouts : List FractalRect) : List (List Pt) :=
  ((sierpinski_leaf_triangles rect depth inset).filter
    (fun t => ¬ keepouts.any (fun k => rects_intersect (_triangle_bbox t) k))).map
    _triangle_to_path

/-! ## generate.py: data model -/

/-- Outline of a piece (the "outline" dict of generate.py): either a full
rectangle with coordinates, the bare placeholder rect dict used by
_new_wall_piece / _new_floor_piece before joint outlines are installed, or a
closed path given by its vertex list (trailing Z implicit). -/
inductive Outline where
  | rect (x y w h : ℚ)
  | rectPlaceholder
  | path (d : List Pt)
deriving DecidableEq, Repr

/-- Internal cut primitive (generate.py svg_rect / svg_circle dicts; the
constant stroke attributes are rendering data and are not modelled). -/
inductive Cut where
  | rect (x y w h : ℚ)
  | circle (cx cy r : ℚ)
deriving DecidableEq, Repr

/-- Engrave primitive (generate.py svg_text / svg_path dicts). -/
inductive Engrave where
  | text (x y : ℚ) (content : String) (font : String) (size : ℚ)
      (anchor : String) (rotation : ℤ)
  | path (d : List Pt)
deriving DecidableEq, Repr

/-- A panel piece (the piece dicts built by generate.py). -/
structure Piece where
  name : String
  w : ℚ
  h : ℚ
  base_w : ℚ
  base_h : ℚ
  outline : Outline
  cuts : List Cut
  engraves : List Engrave
deriving DecidableEq, Repr

/-- Per-wall decoration mode strings, "none" / "text" / "fractal"
(the wall_mode dict of validate.py). -/
structure WallModes where
  front : String
  back : String
  left : String
  right : String
deriving DecidableEq, Repr

/-- Per-wall text content (the wall_text dict of validate.py). -/
structure WallTexts where
  front : String
  back : String
  left : String
  right : String
deriving DecidableEq, Repr

/-- The validated parameter set returned by validate_inputs and consumed by
generate.py. -/
structure Params where
  L_out : ℚ
  W_out : ℚ
  H_out : ℚ
  L_in : ℚ
  W_in : ℚ
  t : ℚ
  kerf : ℚ
  wall_mode : WallModes
  wall_text : WallTexts
  num_dividers : ℤ
  divider_positions : List ℚ
deriving DecidableEq, Repr

/-- Packing view of a piece: shelf_pack reads only the name, w and h keys of
each piece dict. -/
structure PackItem where
  name : String
  w : ℚ
  h : ℚ
deriving DecidableEq, Repr

/-- A placement produced by shelf_pack. -/
structure Placement where
  name : String
  x : ℚ
  y : ℚ
  rot : ℤ
deriving DecidableEq, Repr

/-- The packing view of a piece dict (duck typing of shelf_pack). -/
def toPackItem (p : Piece) : PackItem := ⟨p.name, p.w, p.h⟩

/-! ## generate.py: shelf packing -/

/-- Stable insertion of a piece into a list sorted by height descending:
the piece goes after every element of height at least its own.  Together
with sortByHDesc this implements exactly the stable descending sort
performed by sorted(pieces, key h, reverse=True) in shelf_pack. -/
def insertDescH (p : PackItem) : List PackItem → List PackItem
  | [] => [p]
  | q :: rest => if p.h ≤ q.h then q :: insertDescH p rest else p :: q :: rest

/-- Stable sort by height descending, equal heights keeping input order
(models Python sorted with key h and reverse=True in shelf_pack). -/
def sortByHDesc (l : List PackItem) : List PackItem :=
  l.foldl (fun acc p => insertDescH p acc) []

/-- The placement loop of shelf_pack: walk the sorted pieces with cursor x,
current row top y and current row height row_h; wrap to a new row when the
piece would pass the sheet width; fail when the row placement would pass the
sheet height. -/
def shelfPackGo (sheet_w sheet_h gap : ℚ) :
    List PackItem → ℚ → ℚ → ℚ → Option (List Placement)
  | [], _, _, _ => some []
  | p :: rest, x, y, row_h =>
    let x1 := if x + p.w + gap > sheet_w then gap else x
    let y1 := if x + p.w + gap > sheet_w then y + row_h + gap else y
    let r1 := if x + p.w + gap > sheet_w then 0 else row_h
    if y1 + p.h + gap > sheet_h then none
    else
      (shelfPackGo sheet_w sheet_h gap rest (x1 + p.w + gap) y1 (max r1 p.h)).map
        (fun pls => ⟨p.name, x1, y1, 0⟩ :: pls)

/-- Shelf packing (generate.py shelf_pack): sort by height descending, then
place greedily; returns the placements in sorted-piece order, or none when a
row placement would exceed the sheet height. -/
def shelf_pack (pieces : List PackItem) (sheet_w sheet_h gap : ℚ) :
    Option (List Placement) :=
  shelfPackGo sheet_w sheet_h gap (sortByHDesc pieces) gap gap 0

/-! ## generate.py: piece construction -/

/-- Piece constructor with a plain rectangular outline (generate.py _new_piece). -/
def _new_piece (name : String) (w h : ℚ) : Piece :=
  { name := name, w := w, h := h, base_w := w, base_h := h
    outline := Outline.rect 0 0 w h, cuts := [], engraves := [] }

/-- Wall piece constructor (generate.py _new_wall_piece): the bounding box is
enlarged by the finger tab depth on the right and bottom; reads the missing
constants attribute finger_tab_depth_draw. -/
def _new_wall_piece (env : ConstantsEnv) (name : String) (base_w base_h kerf : ℚ) :
    Except PyError Piece := do
  let f ← C_getattr env.finger_tab_depth_draw "finger_tab_depth_draw"
  let tab_d := f kerf
  pure { name := name, w := base_w + tab_d, h := base_h + tab_d
         base_w := base_w, base_h := base_h
         outline := Outline.rectPlaceholder, cuts := [], engraves := [] }

/-- Floor piece constructor (generate.py _new_floor_piece). -/
def _new_floor_piece (name : String) (base_w base_h : ℚ) : Piece :=
  { name := name, w := base_w, h := base_h, base_w := base_w, base_h := base_h
    outline := Outline.rectPlaceholder, cuts := [], engraves := [] }

/-- Find a piece by name (generate.py _find_piece); raises KeyError when
absent. -/
def _find_piece (pieces : List Piece) (name : String) : Except PyError Piece :=
  match pieces.find? (fun p => p.name == name) with
  | some p => Except.ok p
  | none => Except.error (PyError.keyError name)

/-- Replace the piece of the given name (models the in-place mutation of the
dict returned by _find_piece; piece names are unique in this pipeline). -/
def setPiece (pieces : List Piece) (name : String) (p : Piece) : List Piece :=
  pieces.map (fun q => if q.name == name then p else q)

/-- Models str.startswith. -/
def str_startswith (s pre : String) : Bool :=
  pre.toList.isPrefixOf s.toList

/-! ## generate.py: finger joint outlines -/

/-- Centres of the two corner features along an edge
(generate.py _corner_centers, which returns the two-element list [a, b]). -/
def _corner_centers (edge_len feature_w margin : ℚ) : ℚ × ℚ :=
  (margin + feature_w / 2, edge_len - (margin + feature_w / 2))

/-- Vertex list of the wall outline path for given drawn feature width fw,
tab depth tab_d and pocket depth pocket_d (the path built by generate.py
_wall_outline): plain top edge, two outward tabs on the right and bottom
edges, two inward pockets on the left edge, returning to the start vertex
before the closing Z. -/
def wallOutlineVertices (m fw tab_d pocket_d base_w base_h : ℚ) : List Pt :=
  let ys := _corner_centers base_h fw m
  let y1 := ys.1
  let y2 := ys.2
  let a1 := y1 - fw / 2
  let b1 := y1 + fw / 2
  let a2 := y2 - fw / 2
  let b2 := y2 + fw / 2
  let xs := _corner_centers base_w fw m
  let x1 := xs.1
  let x2 := xs.2
  let c1 := x1 - fw / 2
  let d1 := x1 + fw / 2
  let c2 := x2 - fw / 2
  let d2 := x2 + fw / 2
  let x0 : ℚ := 0
  let xB := base_w
  let y0 : ℚ := 0
  let yB := base_h
  [(x0, y0), (xB, y0),
   (xB, a2), (xB + tab_d, a2), (xB + tab_d, b2), (xB, b2),
   (xB, a1), (xB + tab_d, a1), (xB + tab_d, b1), (xB, b1),
   (xB, yB),
   (d2, yB), (d2, yB + tab_d), (c2, yB + tab_d), (c2, yB),
   (d1, yB), (d1, yB + tab_d), (c1, yB + tab_d), (c1, yB),
   (x0, yB),
   (x0, b1), (x0 + pocket_d, b1), (x0 + pocket_d, a1), (x0, a1),
   (x0, b2), (x0 + pocket_d, b2), (x0 + pocket_d, a2), (x0, a2),
   (x0, y0)]

/-- Wall outline (generate.py _wall_outline): reads the three missing
finger-joint attributes of the constants module, then emits the closed path. -/
def _wall_outline (env : ConstantsEnv) (base_w base_h kerf : ℚ) :
    Except PyError Outline := do
  let fwF ← C_getattr env.finger_feature_w_draw "finger_feature_w_draw"
  let tabF ← C_getattr env.finger_tab_depth_draw "finger_tab_depth_draw"
  let pocketF ← C_getattr env.finger_pocket_depth_draw "finger_pocket_depth_draw"
  pure (Outline.path
    (wallOutlineVertices MIN_EDGE_MARGIN_MM (fwF kerf) (tabF kerf) (pocketF kerf) base_w base_h))

/-- Vertex list of the floor outline path (generate.py _floor_outline): two
inward pockets near the corners of each of the four edges.  The source path
ends with the vertex (0, yT0) followed directly by the closing Z, without an
explicit line back to the start vertex (0, 0). -/
def floorOutlineVertices (m fw pocket_d base_w base_h : ℚ) : List Pt :=
  let w := base_w
  let h := base_h
  let xL0 := m
  let xL1 := m + fw
  let xR0 := w - m - fw
  let xR1 := w - m
  let yT0 := m
  let yT1 := m + fw
  let yB0 := h - m - fw
  let yB1 := h - m
  [((0 : ℚ), (0 : ℚ)),
   (xL0, 0), (xL0, pocket_d), (xL1, pocket_d), (xL1, 0),
   (xR0, 0), (xR0, pocket_d), (xR1, pocket_d), (xR1, 0),
   (w, 0),
   (w, yT0), (w - pocket_d, yT0), (w - pocket_d, yT1), (w, yT1),
   (w, yB0), (w - pocket_d, yB0), (w - pocket_d, yB1), (w, yB1),
   (w, h),
   (xR1, h), (xR1, h - pocket_d), (xR0, h - pocket_d), (xR0, h),
   (xL1, h), (xL1, h - pocket_d), (xL0, h - pocket_d), (xL0, h),
   (0, h),
   (0, yB1), (pocket_d, yB1), (pocket_d, yB0), (0, yB0),
   (0, yT1), (pocket_d, yT1), (pocket_d, yT0), (0, yT0)]

/-- Floor outline (generate.py _floor_outline). -/
def _floor_outline (env : ConstantsEnv) (base_w base_h kerf : ℚ) :
    Except PyError Outline := do
  let fwF ← C_getattr env.finger_feature_w_draw "finger_feature_w_draw"
  let pocketF ← C_getattr env.finger_pocket_depth_draw "finger_pocket_depth_draw"
  pure (Outline.path
    (floorOutlineVertices MIN_EDGE_MARGIN_MM (fwF kerf) (pocketF kerf) base_w base_h))

/-- Install the jointed outlines on the four walls, the floor, and the plain
rectangles on dividers (generate.py _add_finger_joint_outlines). -/
def _add_finger_joint_outlines (env : ConstantsEnv) (pieces : List Piece)
    (params : Params) : Except PyError (List Piece) := do
  let kerf := params.kerf
  let p1 ← _find_piece pieces "wall_front"
  let o1 ← _wall_outline env p1.base_w p1.base_h kerf
  let pieces := setPiece pieces "wall_front" { p1 with outline := o1 }
  let p2 ← _find_piece pieces "wall_back"
  let o2 ← _wall_outline env p2.base_w p2.base_h kerf
  let pieces := setPiece pieces "wall_back" { p2 with outline := o2 }
  let p3 ← _find_piece pieces "wall_left"
  let o3 ← _wall_outline env p3.base_w p3.base_h kerf
  let pieces := setPiece pieces "wall_left" { p3 with outline := o3 }
  let p4 ← _find_piece pieces "wall_right"
  let o4 ← _wall_outline env p4.base_w p4.base_h kerf
  let pieces := setPiece pieces "wall_right" { p4 with outline := o4 }
  let fl ← _find_piece pieces "floor"
  let ofl ← _floor_outline env fl.base_w fl.base_h kerf
  let pieces := setPiece pieces "floor" { fl with outline := ofl }
  pure (pieces.map (fun p =>
    if str_startswith p.name "divider_" then
      { p with outline := Outline.rect 0 0 p.base_w p.base_h }
    else p))

/-! ## generate.py: divider slots -/

/-- Rectangle cut primitive (generate.py svg_rect with default stroke). -/
def svg_rect (x y w h : ℚ) : Cut := Cut.rect x y w h

/-- Circle cut primitive (generate.py svg_circle with default stroke). -/
def svg_circle (cx cy r : ℚ) : Cut := Cut.circle cx cy r

/-- Text engrave primitive (generate.py svg_text; font family and anchor come
from the constants module). -/
def svg_text (x y : ℚ) (text : String) (font_size : ℚ) (rotation : ℤ) : Engrave :=
  Engrave.text x y text TEXT_FONT_FAMILY font_size TEXT_ANCHOR rotation

/-- Path engrave primitive (generate.py svg_path). -/
def svg_path (d : List Pt) : Engrave := Engrave.path d

/-- Cut one divider slot set into the front wall, back wall and floor
(the loop body of generate.py _add_divider_slots_front_to_back). -/
def addDividerSlotAt (pieces : List Piece) (t slot_w slot_h y0 W_in pos : ℚ) :
    Except PyError (List Piece) := do
  let x_center := t + pos
  let x_wall := x_center - slot_w / 2
  let front ← _find_piece pieces "wall_front"
  let pieces := setPiece pieces "wall_front"
    { front with cuts := front.cuts ++ [svg_rect x_wall y0 slot_w slot_h] }
  let back ← _find_piece pieces "wall_back"
  let pieces := setPiece pieces "wall_back"
    { back with cuts := back.cuts ++ [svg_rect x_wall y0 slot_w slot_h] }
  let x_floor := x_center - slot_w / 2
  let y_floor := t
  let floor ← _find_piece pieces "floor"
  let pieces := setPiece pieces "floor"
    { floor with cuts := floor.cuts ++ [svg_rect x_floor y_floor slot_w W_in] }
  pure pieces

/-- Divider slot placement (generate.py _add_divider_slots_front_to_back):
for every divider position, a slot in the front and back walls and a slit
through the floor. -/
def _add_divider_slots_front_to_back (pieces : List Piece) (params : Params) :
    Except PyError (List Piece) := do
  let kerf := params.kerf
  let t := params.t
  let W_in := params.W_in
  let slot_w := divider_slot_draw_w kerf
  let y0 := DIVIDER_SLOT_BOTTOM_MARGIN_MM
  let y1 := params.H_out - DIVIDER_SLOT_TOP_CAP_MM
  let slot_h := max 0 (y1 - y0)
  let _ ← _find_piece pieces "wall_front"
  let _ ← _find_piece pieces "wall_back"
  let _ ← _find_piece pieces "floor"
  params.divider_positions.foldlM
    (fun pcs pos => addDividerSlotAt pcs t slot_w slot_h y0 W_in pos) pieces

/-! ## generate.py: joint-based fasteners -/

/-- Add a T-slot (nut pocket plus stem) on the right edge region of a wall
(generate.py _add_tslot_on_right_edge).  Reads the missing constants
attributes finger_tab_depth_draw and T_SLOT_STEM_LENGTH_MM. -/
def _add_tslot_on_right_edge (env : ConstantsEnv) (wall : Piece) (kerf y : ℚ) :
    Except PyError Piece := do
  let bw := wall.base_w
  let tabF ← C_getattr env.finger_tab_depth_draw "finger_tab_depth_draw"
  let tab_d := tabF kerf
  let nut_w := nut_pocket_draw_w kerf
  let stem_w := screw_hole_draw_d kerf
  let stem_len ← C_getattr env.T_SLOT_STEM_LENGTH_MM "T_SLOT_STEM_LENGTH_MM"
  let cx := bw - (nut_w / 2 + 0.8)
  let cy := y
  let pocket := svg_rect (cx - nut_w / 2) (cy - nut_w / 2) nut_w nut_w
  let x0 := cx
  let x1 := bw + tab_d
  let stem_len_eff := if x1 - x0 < stem_len then max 0 (x1 - x0) else stem_len
  let stem := svg_rect (x1 - stem_len_eff) (cy - stem_w / 2) stem_len_eff stem_w
  pure { wall with cuts := wall.cuts ++ [pocket, stem] }

/-- Add a screw clearance hole on the left edge region of the mating wall
(generate.py _add_clearance_holes_on_left_edge). -/
def _add_clearance_holes_on_left_edge (env : ConstantsEnv) (wall : Piece)
    (kerf y : ℚ) : Except PyError Piece := do
  let hole_d := screw_hole_draw_d kerf
  let pocketF ← C_getattr env.finger_pocket_depth_draw "finger_pocket_depth_draw"
  let pocket_d := pocketF kerf
  let cx := pocket_d + hole_d / 2 + 0.8
  let cy := y
  pure { wall with cuts := wall.cuts ++ [svg_circle cx cy (hole_d / 2)] }

/-- Add a compact floor T-slot at centre (x, y) with the stem opening to +x
(generate.py _add_floor_tslot). -/
def _add_floor_tslot (env : ConstantsEnv) (floor : Piece) (kerf x y : ℚ) :
    Except PyError Piece := do
  let nut_w := nut_pocket_draw_w kerf
  let stem_w := screw_hole_draw_d kerf
  let stem_len ← C_getattr env.T_SLOT_STEM_LENGTH_MM "T_SLOT_STEM_LENGTH_MM"
  let pocket := svg_rect (x - nut_w / 2) (y - nut_w / 2) nut_w nut_w
  let stem := svg_rect (x + nut_w / 2) (y - stem_w / 2) stem_len stem_w
  pure { floor with cuts := floor.cuts ++ [pocket, stem] }

/-- Process one adjacency of the wall fastening chain: T-slots on the tab
wall and clearance holes on the mating wall at the two corner-centre heights
(the chain loop body of generate.py _add_joint_based_fasteners). -/
def addChainFasteners (env : ConstantsEnv) (pieces : List Piece)
    (kerf fw m : ℚ) (tabName mateName : String) : Except PyError (List Piece) := do
  let tab_wall ← _find_piece pieces tabName
  let mate_wall ← _find_piece pieces mateName
  let ys := _corner_centers (min tab_wall.base_h mate_wall.base_h) fw m
  [ys.1, ys.2].foldlM
    (fun pcs y => do
      let tw ← _find_piece pcs tabName
      let tw2 ← _add_tslot_on_right_edge env tw kerf y
      let pcs := setPiece pcs tabName tw2
      let mw ← _find_piece pcs mateName
      let mw2 ← _add_clearance_holes_on_left_edge env mw kerf y
      pure (setPiece pcs mateName mw2))
    pieces

/-- Joint-based fasteners (generate.py _add_joint_based_fasteners):
wall-to-wall T-slots and clearance holes along the fixed adjacency chain,
floor T-slots near the perimeter, and clearance holes in the wall bottom
tabs. -/
def _add_joint_based_fasteners (env : ConstantsEnv) (pieces : List Piece)
    (params : Params) : Except PyError (List Piece) := do
  let kerf := params.kerf
  let fwF ← C_getattr env.finger_feature_w_draw "finger_feature_w_draw"
  let fw := fwF kerf
  let m := MIN_EDGE_MARGIN_MM
  let pieces ← addChainFasteners env pieces kerf fw m "wall_front" "wall_right"
  let pieces ← addChainFasteners env pieces kerf fw m "wall_right" "wall_back"
  let pieces ← addChainFasteners env pieces kerf fw m "wall_back" "wall_left"
  let pieces ← addChainFasteners env pieces kerf fw m "wall_left" "wall_front"
  let floor ← _find_piece pieces "floor"
  let fw_floor := floor.base_w
  let fh_floor := floor.base_h
  let xs_floor := _corner_centers fw_floor fw m
  let ys_floor := _corner_centers fh_floor fw m
  let floor ← _add_floor_tslot env floor kerf xs_floor.1 (m + fw / 2)
  let floor ← _add_floor_tslot env floor kerf xs_floor.1 (fh_floor - (m + fw / 2))
  let floor ← _add_floor_tslot env floor kerf xs_floor.2 (m + fw / 2)
  let floor ← _add_floor_tslot env floor kerf xs_floor.2 (fh_floor - (m + fw / 2))
  let floor ← _add_floor_tslot env floor kerf (m + fw / 2) ys_floor.1
  let floor ← _add_floor_tslot env floor kerf (fw_floor - (m + fw / 2)) ys_floor.1
  let floor ← _add_floor_tslot env floor kerf (m + fw / 2) ys_floor.2
  let floor ← _add_floor_tslot env floor kerf (fw_floor - (m + fw / 2)) ys_floor.2
  let pieces := setPiece pieces "floor" floor
  let tabF ← C_getattr env.finger_tab_depth_draw "finger_tab_depth_draw"
  let tab_d := tabF kerf
  let hole_d := screw_hole_draw_d kerf
  ["wall_front", "wall_back", "wall_left", "wall_right"].foldlM
    (fun pcs wallName => do
      let w ← _find_piece pcs wallName
      let xs := _corner_centers w.base_w fw m
      let cy := w.base_h + tab_d / 2
      pure (setPiece pcs wallName
        { w with cuts := w.cuts ++
            [svg_circle xs.1 cy (hole_d / 2), svg_circle xs.2 cy (hole_d / 2)] }))
    pieces

/-! ## generate.py: engraving -/

/-- Safe engraving bounds for a piece, avoiding edges and fastener regions
(generate.py _calculate_engraving_safe_bounds); returns
(x_min, y_min, x_max, y_max).  Reads the missing constants attribute
finger_feature_w_draw. -/
def _calculate_engraving_safe_bounds (env : ConstantsEnv) (piece_name : String)
    (piece : Piece) (params : Params) : Except PyError (ℚ × ℚ × ℚ × ℚ) := do
  let bw := piece.base_w
  let bh := piece.base_h
  let kerf := params.kerf
  let margin := ENGRAVE_MARGIN_MM
  let fwF ← C_getattr env.finger_feature_w_draw "finger_feature_w_draw"
  let fw := fwF kerf
  let m := MIN_EDGE_MARGIN_MM
  let ys_fastener := _corner_centers bh fw m
  let fastener_size := fw + 6.0
  let x_min := margin
  let y_min := margin
  let x_max := bw - margin
  let y_max := bh - margin
  if piece_name == "wall_front" || piece_name == "wall_back" ||
      piece_name == "wall_left" || piece_name == "wall_right" then
    let y_top_fastener := ys_fastener.1
    let y_bot_fastener := ys_fastener.2
    let y_top_max := y_top_fastener + fastener_size / 2 + 2.0
    let y_bot_min := y_bot_fastener - fastener_size / 2 - 2.0
    let y_min := y_top_max + 6.0
    let y_max := y_bot_min - 6.0
    if piece_name == "wall_left" || piece_name == "wall_right" then
      pure (margin + 3.0, y_min, bw - margin - 3.0, y_max)
    else
      pure (x_min, y_min, x_max, y_max)
  else
    pure (x_min, y_min, x_max, y_max)

/-- Text box dimensions as a fixed fraction of the safe zone
(generate.py _calculate_text_box_size): 75 percent of the width and
50 percent of the height. -/
def _calculate_text_box_size (safe_width safe_height : ℚ) : ℚ × ℚ :=
  (safe_width * 0.75, safe_height * 0.50)

/-- Estimated character width per unit font size
(the local char_width_ratio = 0.55 of generate.py _calculate_auto_font_size). -/
def char_width_coeff : ℚ := 0.55

/-- Estimated text height per unit font size
(the local height_ratio = 1.2 of generate.py _calculate_auto_font_size). -/
def height_coeff : ℚ := 1.2

/-- The while loop of _calculate_auto_font_size: while the font size is at
least the minimum, return it as soon as the estimated footprint fits the
box, otherwise step down by 0.5; return the minimum when the loop exits.
The fuel argument only bounds the iteration count; fontFuel always provides
strictly more fuel than the loop can consume, so the basecase at fuel 0 is
unreachable. -/
def autoFontLoop (textLen : ℕ) (box_width box_height min_font_size : ℚ) :
    ℕ → ℚ → ℚ
  | 0, _ => min_font_size
  | fuel + 1, font_size =>
    if font_size < min_font_size then min_font_size
    else if (textLen : ℚ) * font_size * char_width_coeff ≤ box_width ∧
        font_size * height_coeff ≤ box_height then font_size
    else autoFontLoop textLen box_width box_height min_font_size fuel (font_size - 0.5)

/-- Iteration bound for autoFontLoop: the loop body runs at most
ceil(2 (max - min)) + 1 times before the font size drops below the minimum. -/
def fontFuel (max_font_size min_font_size : ℚ) : ℕ :=
  (⌈(max_font_size - min_font_size) * 2⌉).toNat + 2

/-- Largest font size in the 0.5-step descent from max_font_size whose
estimated footprint fits the text box, floored at min_font_size
(generate.py _calculate_auto_font_size); empty text returns max_font_size. -/
def _calculate_auto_font_size (text_content : String)
    (box_width box_height max_font_size min_font_size : ℚ) : ℚ :=
  if text_content.length = 0 then max_font_size
  else autoFontLoop text_content.length box_width box_height min_font_size
    (fontFuel max_font_size min_font_size) max_font_size

/-- Engraving geometry appended to a fractal-mode wall (the fractal branch of
generate.py _add_standard_engraving): Sierpinski paths at depth 4 with inset
T_MM and an empty keepout list, clipped by that keepout list. -/
def fractalWallEngraves (x_min y_min safe_w safe_h : ℚ) : List Engrave :=
  (sierpinski_paths_clipped_by_keepouts ⟨x_min, y_min, safe_w, safe_h⟩ 4 T_MM []).map
    svg_path

/-- Engrave one wall according to its decoration mode (the loop body of
generate.py _add_standard_engraving). -/
def engraveWall (env : ConstantsEnv) (pieces : List Piece) (params : Params)
    (wall_key piece_name : String) (mode text_content : String) :
    Except PyError (List Piece) := do
  if mode == "none" then pure pieces
  else do
    let piece ← _find_piece pieces piece_name
    let bounds ← _calculate_engraving_safe_bounds env piece_name piece params
    let x_min := bounds.1
    let y_min := bounds.2.1
    let x_max := bounds.2.2.1
    let y_max := bounds.2.2.2
    let safe_w := max 0 (x_max - x_min)
    let safe_h := max 0 (y_max - y_min)
    if safe_w ≤ 0 ∨ safe_h ≤ 0 then pure pieces
    else if mode == "text" then
      let rotation : ℤ := if wall_key == "left" then 90
        else if wall_key == "right" then -90 else 0
      let calc_w := if rotation ≠ 0 then safe_h else safe_w
      let calc_h := if rotation ≠ 0 then safe_w else safe_h
      let box := _calculate_text_box_size calc_w calc_h
      let font_size := _calculate_auto_font_size text_content box.1 box.2 10.0 3.0
      let cx := x_min + safe_w / 2
      let cy := if rotation = 0 then y_max - font_size * 0.3 else y_min + safe_h / 2
      pure (setPiece pieces piece_name
        { piece with engraves := piece.engraves ++ [svg_text cx cy text_content font_size rotation] })
    else if mode == "fractal" then
      pure (setPiece pieces piece_name
        { piece with engraves := piece.engraves ++ fractalWallEngraves x_min y_min safe_w safe_h })
    else pure pieces

/-- Standard engraving pass over the four walls
(generate.py _add_standard_engraving). -/
def _add_standard_engraving (env : ConstantsEnv) (pieces : List Piece)
    (params : Params) : Except PyError (List Piece) := do
  let pieces ← engraveWall env pieces params "front" "wall_front"
    params.wall_mode.front params.wall_text.front
  let pieces ← engraveWall env pieces params "back" "wall_back"
    params.wall_mode.back params.wall_text.back
  let pieces ← engraveWall env pieces params "left" "wall_left"
    params.wall_mode.left params.wall_text.left
  let pieces ← engraveWall env pieces params "right" "wall_right"
    params.wall_mode.right params.wall_text.right
  pure pieces

/-! ## generate.py: top-level pipeline -/

/-- Build the full piece set (generate.py build_pieces): four walls, the
floor and the dividers, then joint outlines, divider slots, joint-based
fasteners and engraving. -/
def build_pieces (env : ConstantsEnv) (params : Params) :
    Except PyError (List Piece) := do
  let wf ← _new_wall_piece env "wall_front" params.L_out params.H_out params.kerf
  let wb ← _new_wall_piece env "wall_back" params.L_out params.H_out params.kerf
  let wl ← _new_wall_piece env "wall_left" params.W_out params.H_out params.kerf
  let wr ← _new_wall_piece env "wall_right" params.W_out params.H_out params.kerf
  let fl := _new_floor_piece "floor" params.L_out params.W_out
  let divs := (List.range params.num_dividers.toNat).map
    (fun i => _new_piece ("divider_" ++ toString (i + 1)) params.W_in (params.H_out - T_MM))
  let pieces := [wf, wb, wl, wr, fl] ++ divs
  let pieces ← _add_finger_joint_outlines env pieces params
  let pieces ← _add_divider_slots_front_to_back pieces params
  let pieces ← _add_joint_based_fasteners env pieces params
  let pieces ← _add_standard_engraving env pieces params
  pure pieces

/-- Top-level generation (generate.py generate_svg): build the pieces, pack
them on the fixed sheet, raise ValueError on packing failure.  The final
to_svg serialization is the external Renderer of the spec; its inputs, the
piece list and the placements, are returned instead of the rendered text. -/
def generate_svg (env : ConstantsEnv) (params : Params) :
    Except PyError (List Piece × List Placement) := do
  let pieces ← build_pieces env params
  match shelf_pack (pieces.map toPackItem) SHEET_W_MM SHEET_H_MM PART_GAP_MM with
  | none => Except.error (PyError.valueError "Parts do not fit on one 12x18 sheet (packing failed).")
  | some placements => Except.ok (pieces, placements)

/-! ## validate.py -/

/-- Raw user inputs (the inputs dict of validate.py).  Option models a key
that may be absent; the flag fields model bool(inputs.get(key, False)); the
content fields model str(inputs.get(key, "") or ""); numDividers models
int(inputs.get("numDividers", 0)). -/
structure Inputs where
  length : Option ℚ
  width : Option ℚ
  height : Option ℚ
  kerf_mm : Option ℚ
  frontText : Bool
  backText : Bool
  leftText : Bool
  rightText : Bool
  frontFractal : Bool
  backFractal : Bool
  leftFractal : Bool
  rightFractal : Bool
  frontTextContent : String
  backTextContent : String
  leftTextContent : String
  rightTextContent : String
  numDividers : ℤ
  dividerPos1 : Option ℚ
  dividerPos2 : Option ℚ
deriving DecidableEq, Repr

/-- Inches-to-millimetres conversion (validate.py inches_to_mm). -/
def inches_to_mm (x_in : ℚ) : ℚ := x_in * INCH_TO_MM

/-- Decoration mode of one wall from its two flags (the loop body of
validate.py build_wall_mode): both flags set is an error, otherwise text
wins over fractal over none. -/
def wallModeOf (wall : String) (tflag fflag : Bool) : Except PyError String :=
  if tflag && fflag then
    Except.error (PyError.valueError (wall ++ ": cannot have both text and fractal."))
  else Except.ok (if tflag then "text" else if fflag then "fractal" else "none")

/-- Per-wall decoration modes (validate.py build_wall_mode), walls checked in
the order front, back, left, right. -/
def build_wall_mode (inputs : Inputs) : Except PyError WallModes := do
  let front ← wallModeOf "front" inputs.frontText inputs.frontFractal
  let back ← wallModeOf "back" inputs.backText inputs.backFractal
  let left ← wallModeOf "left" inputs.leftText inputs.leftFractal
  let right ← wallModeOf "right" inputs.rightText inputs.rightFractal
  pure ⟨front, back, left, right⟩

/-- Required positive dimension (the dimension loop of validate.py
validate_inputs): absent key or non-positive value is an error. -/
def requirePosDim (v : Option ℚ) (key : String) : Except PyError ℚ :=
  match v with
  | none => Except.error (PyError.valueError ("Missing required input: " ++ key))
  | some x =>
    if x ≤ 0 then Except.error (PyError.valueError (key ++ " must be > 0"))
    else Except.ok x

/-- True when the string strips to empty, modelling
Python not content.strip(): every character is whitespace. -/
def str_is_blank (s : String) : Bool := s.toList.all Char.isWhitespace

/-- Text content check for one wall (the wall_text loop of validate.py
validate_inputs): text mode with blank content is an error. -/
def checkWallText (mode content wall key : String) : Except PyError String :=
  if mode == "text" && str_is_blank content then
    Except.error (PyError.valueError (wall ++ ": text enabled but " ++ key ++ " is empty."))
  else Except.ok content

/-- Input validation (validate.py validate_inputs): checks dimensions,
interior size, wall modes and text, divider count and divider positions, and
returns the derived parameter set in millimetres. -/
def validate_inputs (inputs : Inputs) : Except PyError Params := do
  let length ← requirePosDim inputs.length "length"
  let width ← requirePosDim inputs.width "width"
  let height ← requirePosDim inputs.height "height"
  let L_out := inches_to_mm length
  let W_out := inches_to_mm width
  let H_out := inches_to_mm height
  let kerf := inputs.kerf_mm.getD KERF_MM_DEFAULT
  let t := T_MM
  let L_in := L_out - 2 * t
  let W_in := W_out - 2 * t
  if L_in ≤ 0 ∨ W_in ≤ 0 then
    Except.error (PyError.valueError "Box too small: interior length/width must be positive after subtracting thickness.")
  else do
    let wall_mode ← build_wall_mode inputs
    let frontC ← checkWallText wall_mode.front inputs.frontTextContent "front" "frontTextContent"
    let backC ← checkWallText wall_mode.back inputs.backTextContent "back" "backTextContent"
    let leftC ← checkWallText wall_mode.left inputs.leftTextContent "left" "leftTextContent"
    let rightC ← checkWallText wall_mode.right inputs.rightTextContent "right" "rightTextContent"
    let num_dividers := inputs.numDividers
    if ¬ (num_dividers = 0 ∨ num_dividers = 1 ∨ num_dividers = 2) then
      Except.error (PyError.valueError "numDividers must be 0, 1, or 2.")
    else do
      let divider_positions ←
        if num_dividers ≥ 1 then
          match inputs.dividerPos1 with
          | none => Except.error (PyError.valueError "dividerPos1 is required when numDividers >= 1.")
          | some p1 =>
            if num_dividers = 2 then
              match inputs.dividerPos2 with
              | none => Except.error (PyError.valueError "dividerPos2 is required when numDividers == 2.")
              | some p2 => Except.ok [inches_to_mm p1, inches_to_mm p2]
            else Except.ok [inches_to_mm p1]
        else Except.ok ([] : List ℚ)
      let _ ← (match divider_positions with
        | [q1, q2] =>
          if ¬ (q1 < q2) then
            Except.error (PyError.valueError "For 2 dividers, dividerPos1 must be < dividerPos2.")
          else Except.ok ()
        | _ => Except.ok ())
      let min_gap := DIVIDER_MIN_GAP_MM
      if divider_positions.any (fun p => decide (p < min_gap ∨ p > W_in - min_gap)) then
        Except.error (PyError.valueError "Divider too close to a wall (violates minimum gap).")
      else do
        let _ ← (match divider_positions with
          | [q1, q2] =>
            if q2 - q1 < min_gap then
              Except.error (PyError.valueError "Dividers too close to each other (violates minimum gap).")
            else Except.ok ()
          | _ => Except.ok ())
        pure { L_out := L_out, W_out := W_out, H_out := H_out
               L_in := L_in, W_in := W_in, t := t, kerf := kerf
               wall_mode := wall_mode
               wall_text := ⟨frontC, backC, leftC, rightC⟩
               num_dividers := num_dividers
               divider_positions := divider_positions }

/-! ## Statement-support definitions -/

/-- Sheet-relative axis-aligned box of a placed piece. -/
structure PackBox where
  x : ℚ
  y : ℚ
  w : ℚ
  h : ℚ
deriving DecidableEq, Repr

/-- Boxes of the placed pieces: the i-th placement returned by the packing
loop places the i-th piece of the sorted list. -/
def packBoxes (items : List PackItem) (placements : List Placement) : List PackBox :=
  List.zipWith (fun it pl => ⟨pl.x, pl.y, it.w, it.h⟩) items placements

/-- Two placed boxes, each padded by the gap on the right and bottom, do not
overlap: they are separated along one axis by at least the gap. -/
def boxesSeparated (gap : ℚ) (b1 b2 : PackBox) : Prop :=
  b1.x + b1.w + gap ≤ b2.x ∨ b2.x + b2.w + gap ≤ b1.x ∨
    b1.y + b1.h + gap ≤ b2.y ∨ b2.y + b2.h + gap ≤ b1.y

/-- A placed box lies within the sheet rectangle. -/
def boxInSheet (sheet_w sheet_h : ℚ) (b : PackBox) : Prop :=
  0 ≤ b.x ∧ b.x + b.w ≤ sheet_w ∧ 0 ≤ b.y ∧ b.y + b.h ≤ sheet_h

/-- Written from the claim wording for C4: during the greedy left-to-right
walk over the sorted pieces, some piece's row placement (after any row wrap)
would exceed the sheet height. -/
def rowPlacementExceedsHeight (sheet_w sheet_h gap : ℚ) :
    List PackItem → ℚ → ℚ → ℚ → Prop
  | [], _, _, _ => False
  | p :: rest, x, y, row_h =>
    let wrap := x + p.w + gap > sheet_w
    let y1 := if wrap then y + row_h + gap else y
    y1 + p.h + gap > sheet_h ∨
      rowPlacementExceedsHeight sheet_w sheet_h gap rest
        ((if wrap then gap else x) + p.w + gap) y1 (max (if wrap then 0 else row_h) p.h)

/-- Written from the claim wording for C4: the packing run over the sorted
piece list hits the sheet-height check. -/
def shelfPackFailsOnHeight (pieces : List PackItem) (sheet_w sheet_h gap : ℚ) : Prop :=
  rowPlacementExceedsHeight sheet_w sheet_h gap (sortByHDesc pieces) gap gap 0

/-- Recognizes a text engrave with the given content and rotation. -/
def isTextEngraveWith (content : String) (rot : ℤ) : Engrave → Bool
  | Engrave.text _ _ c _ _ _ r => c == content && r == rot
  | _ => false

/-- True when the named piece carries a text engrave with the given content
and rotation. -/
def pieceHasTextEngrave (pieces : List Piece) (pname content : String) (rot : ℤ) : Bool :=
  pieces.any (fun p => p.name == pname && p.engraves.any (isTextEngraveWith content rot))

/-- Piece list of a successful generation (empty on error). -/
def run_pieces (env : ConstantsEnv) (params : Params) : List Piece :=
  match generate_svg env params with
  | Except.ok out => out.1
  | Except.error _ => []

/-- Scenario A input (spec section 8): outer dimensions 6 by 4 by 3 inches,
zero dividers, front wall text "Incline", left wall text "Left", other walls
undecorated, no explicit kerf. -/
def scenarioA_inputs : Inputs :=
  { length := some 6.0, width := some 4.0, height := some 3.0
    kerf_mm := none
    frontText := true, backText := false, leftText := true, rightText := false
    frontFractal := false, backFractal := false, leftFractal := false, rightFractal := false
    frontTextContent := "Incline", backTextContent := "", leftTextContent := "Left"
    rightTextContent := ""
    numDividers := 0, dividerPos1 := none, dividerPos2 := none }

/-- The validated parameter set of scenario A (what validate_inputs returns
on scenarioA_inputs). -/
def scenarioA_params : Params :=
  { L_out := 152.4, W_out := 101.6, H_out := 76.2
    L_in := 146.4, W_in := 95.6, t := 3, kerf := 0.1
    wall_mode := ⟨"text", "none", "text", "none"⟩
    wall_text := ⟨"Incline", "", "Left", ""⟩
    num_dividers := 0, divider_positions := [] }

/-- Scenario B parameter set (spec section 8): a 20 by 20 by 20 inch box
whose panels cannot fit on one sheet; walls undecorated, no dividers. -/
def scenarioB_params : Params :=
  { L_out := 508, W_out := 508, H_out := 508
    L_in := 502, W_in := 502, t := 3, kerf := 0.1
    wall_mode := ⟨"none", "none", "none", "none"⟩
    wall_text := ⟨"", "", "", ""⟩
    num_dividers := 0, divider_positions := [] }

/-- The piece set built for scenario B under the spec-modelled constants. -/
def scenarioB_pieces : List Piece :=
  match build_pieces C_spec scenarioB_params with
  | Except.ok ps => ps
  | Except.error _ => []

/-- Scenario C input (spec section 8): a 6 by 4 by 3 inch box with two
dividers at 0.5 and 0.6 inches, whose mutual distance violates the minimum
gap; no decoration. -/
def scenarioC_inputs : Inputs :=
  { length := some 6.0, width := some 4.0, height := some 3.0
    kerf_mm := none
    frontText := false, backText := false, leftText := false, rightText := false
    frontFractal := false, backFractal := false, leftFractal := false, rightFractal := false
    frontTextContent := "", backTextContent := "", leftTextContent := "", rightTextContent := ""
    numDividers := 2, dividerPos1 := some 0.5, dividerPos2 := some 0.6 }

/-- Concrete leaf triangle of the unit test rectangle used by the fractal
witnesses: the single depth-0 leaf of the rectangle at origin with width and
height 2 and no inset. -/
def fractalWitnessTri : Tri :=
  (((1 : ℚ), 1 - sqrt3 / 2), ((0 : ℚ), 1 + sqrt3 / 2), ((2 : ℚ), 1 + sqrt3 / 2))

/-! ## Theorems -/

/-- C1: with the constants module as the repository ships it (no
finger_tab_depth_draw, finger_feature_w_draw, finger_pocket_depth_draw or
T_SLOT_STEM_LENGTH_MM binding), build_pieces raises AttributeError at the
very first wall construction for every parameter set whatsoever, and
generate_svg therefore raises the same AttributeError and produces no
drawing. -/
theorem C1_attributeError_for_all_params (params : Params) :
    build_pieces C_actual params
        = Except.error (PyError.attributeError "finger_tab_depth_draw") ∧
      generate_svg C_actual params
        = Except.error (PyError.attributeError "finger_tab_depth_draw") := by
  constructor <;> rfl

/-- C8: for every physical target p and kerf k, the internal draw dimension
is p - k and the external draw dimension is p + k; both are pure functions
of their arguments. -/
theorem C8_dimension_rules (p k : ℚ) :
    internal_cut_draw_dim p k = p - k ∧ external_cut_draw_dim p k = p + k :=
  ⟨rfl, rfl⟩

/-- Helper: the recursive subdivision at depth d yields 3 ^ d leaves. -/
theorem sierpinski_rec_length (d : ℕ) :
    ∀ a b c : Pt, (sierpinski_rec a b c d).length = 3 ^ d := by
  induction d with
  | zero => intro a b c; rfl
  | succ d ih =>
    intro a b c
    simp only [sierpinski_rec, List.length_append, ih]
    ring

/-- Helper: the vertex-list path of a triangle determines the triangle. -/
theorem triangle_to_path_inj {t1 t2 : Tri}
    (h : _triangle_to_path t1 = _triangle_to_path t2) : t1 = t2 := by
  simp only [_triangle_to_path, List.cons.injEq, and_true] at h
  obtain ⟨h1, h2, h3⟩ := h
  exact Prod.ext h1 (Prod.ext h2 h3)

/-- Helper: membership in the clip filter unpacked to the keepout test. -/
theorem mem_clip_filter {rect : FractalRect} {depth : ℕ} {inset : ℚ}
    {keepouts : List FractalRect} {t : Tri} :
    t ∈ (sierpinski_leaf_triangles rect depth inset).filter
        (fun t => ¬ keepouts.any (fun k => rects_intersect (_triangle_bbox t) k)) ↔
      t ∈ sierpinski_leaf_triangles rect depth inset ∧
        ¬ ∃ k ∈ keepouts, rects_intersect (_triangle_bbox t) k = true := by
  rw [List.mem_filter]
  simp [List.any_eq_true]

/-- C7: for every rectangle, depth d and inset, sierpinski_leaf_triangles
returns exactly 3 ^ d leaf triangles, and for every keepout list the clipped
path list is a sublist of the paths of those triangles, a leaf's path being
kept exactly when its bounding box intersects no keepout: filtering only
removes triangles, never adds or modifies one. -/
theorem C7_leaf_count_and_filter_subset (rect : FractalRect) (d : ℕ) (inset : ℚ)
    (keepouts : List FractalRect) :
    (sierpinski_leaf_triangles rect d inset).length = 3 ^ d ∧
      (sierpinski_paths_clipped_by_keepouts rect d inset keepouts).Sublist
        ((sierpinski_leaf_triangles rect d inset).map _triangle_to_path) ∧
      ∀ t ∈ sierpinski_leaf_triangles rect d inset,
        (_triangle_to_path t ∈ sierpinski_paths_clipped_by_keepouts rect d inset keepouts ↔
          ¬ ∃ k ∈ keepouts, rects_intersect (_triangle_bbox t) k = true) := by
  refine ⟨sierpinski_rec_length d _ _ _, ?_, ?_⟩
  · exact List.Sublist.map _triangle_to_path (List.filter_sublist _)
  · intro t ht
    constructor
    · intro hmem
      rcases List.mem_map.1 hmem with ⟨t2, ht2, hpath⟩
      rcases mem_clip_filter.1 ht2 with ⟨_, hno⟩
      rwa [triangle_to_path_inj hpath] at hno
    · intro hno
      exact List.mem_map_of_mem _triangle_to_path (mem_clip_filter.2 ⟨ht, hno⟩)

/-- C6: clipping semantics of the fractal engraving.  Every emitted path is
the whole path of some leaf triangle whose bounding box intersects no
keepout; any leaf triangle whose bounding box intersects some keepout is
dropped entirely; and every engrave the pipeline appends to a fractal wall
is the whole path of a leaf triangle of the safe-region rectangle (the
pipeline passes an empty keepout list, so the filter drops nothing there). -/
theorem C6_fractal_whole_triangles_and_drops (rect : FractalRect) (depth : ℕ)
    (inset : ℚ) (keepouts : List FractalRect) :
    (∀ dp ∈ sierpinski_paths_clipped_by_keepouts rect depth inset keepouts,
      ∃ t ∈ sierpinski_leaf_triangles rect depth inset,
        dp = _triangle_to_path t ∧
          ∀ k ∈ keepouts, rects_intersect (_triangle_bbox t) k = false) ∧
      (∀ t ∈ sierpinski_leaf_triangles rect depth inset,
        (∃ k ∈ keepouts, rects_intersect (_triangle_bbox t) k = true) →
          _triangle_to_path t ∉ sierpinski_paths_clipped_by_keepouts rect depth inset keepouts) ∧
      ∀ x_min y_min safe_w safe_h : ℚ,
        ∀ e ∈ fractalWallEngraves x_min y_min safe_w safe_h,
          ∃ t ∈ sierpinski_leaf_triangles ⟨x_min, y_min, safe_w, safe_h⟩ 4 T_MM,
            e = svg_path (_triangle_to_path t) := by
  refine ⟨?_, ?_, ?_⟩
  · intro dp hdp
    rcases List.mem_map.1 hdp with ⟨t, ht, hpath⟩
    rcases mem_clip_filter.1 ht with ⟨htl, hno⟩
    refine ⟨t, htl, hpath.symm, fun k hk => ?_⟩
    cases hik : rects_intersect (_triangle_bbox t) k with
    | false => rfl
    | true => exact absurd ⟨k, hk, hik⟩ hno
  · intro t ht hex hmem
    rcases List.mem_map.1 hmem with ⟨t2, ht2, hpath⟩
    rcases mem_clip_filter.1 ht2 with ⟨_, hno⟩
    rw [triangle_to_path_inj hpath] at hno
    exact hno hex
  · intro x_min y_min safe_w safe_h e he
    rcases List.mem_map.1 he with ⟨dp, hdp, hpath⟩
    rcases List.mem_map.1 hdp with ⟨t, ht, hp2⟩
    rcases mem_clip_filter.1 ht with ⟨htl, _⟩
    exact ⟨t, htl, by rw [← hpath, ← hp2]⟩

/-- Helper: the witness triangle is the depth-0 leaf of its rectangle. -/
theorem fractalWitnessTri_mem :
    fractalWitnessTri ∈ sierpinski_leaf_triangles ⟨0, 0, 2, 2⟩ 0 0 := by
  norm_num [fractalWitnessTri, sierpinski_leaf_triangles, sierpinski_rec,
    FractalRect.inset, _equilateral_triangle_in_rect, sqrt3]

/-- C7 witness: the theorem instantiated at the concrete rectangle at origin
of size 2 by 2, depth 0, inset 0 and no keepouts, at its single leaf. -/
theorem C7_witness :
    fractalWitnessTri ∈ sierpinski_leaf_triangles ⟨0, 0, 2, 2⟩ 0 0 ∧
      (_triangle_to_path fractalWitnessTri ∈
          sierpinski_paths_clipped_by_keepouts ⟨0, 0, 2, 2⟩ 0 0 [] ↔
        ¬ ∃ k ∈ ([] : List FractalRect),
            rects_intersect (_triangle_bbox fractalWitnessTri) k = true) :=
  ⟨fractalWitnessTri_mem,
    (C7_leaf_count_and_filter_subset ⟨0, 0, 2, 2⟩ 0 0 []).2.2 _ fractalWitnessTri_mem⟩

/-- C6 witness: with the whole rectangle as a keepout, the single leaf
triangle of the 2 by 2 rectangle intersects it and its path is dropped. -/
theorem C6_witness :
    fractalWitnessTri ∈ sierpinski_leaf_triangles ⟨0, 0, 2, 2⟩ 0 0 ∧
      (∃ k ∈ [(⟨0, 0, 2, 2⟩ : FractalRect)],
        rects_intersect (_triangle_bbox fractalWitnessTri) k = true) ∧
      _triangle_to_path fractalWitnessTri ∉
        sierpinski_paths_clipped_by_keepouts ⟨0, 0, 2, 2⟩ 0 0 [⟨0, 0, 2, 2⟩] := by
  have hex : ∃ k ∈ [(⟨0, 0, 2, 2⟩ : FractalRect)],
      rects_intersect (_triangle_bbox fractalWitnessTri) k = true := by
    refine ⟨⟨0, 0, 2, 2⟩, List.mem_singleton.2 rfl, ?_⟩
    norm_num [rects_intersect, _triangle_bbox, fractalWitnessTri, sqrt3]
  exact ⟨fractalWitnessTri_mem, hex,
    (C6_fractal_whole_triangles_and_drops ⟨0, 0, 2, 2⟩ 0 0 [⟨0, 0, 2, 2⟩]).2.1 _
      fractalWitnessTri_mem hex⟩

/-- Helper: the font loop never returns more than the larger of its starting
size and the minimum size. -/
theorem autoFontLoop_le (n : ℕ) (bw bh minF : ℚ) :
    ∀ fuel : ℕ, ∀ f : ℚ, autoFontLoop n bw bh minF fuel f ≤ max f minF := by
  intro fuel
  induction fuel with
  | zero => intro f; exact le_max_right _ _
  | succ fuel ih =>
    intro f
    simp only [autoFontLoop]
    split
    · exact le_max_right _ _
    · split
      · exact le_max_left _ _
      · exact le_trans (ih (f - 0.5)) (max_le_max (by linarith) le_rfl)

/-- Helper: the font loop never returns less than the minimum size. -/
theorem autoFontLoop_ge (n : ℕ) (bw bh minF : ℚ) :
    ∀ fuel : ℕ, ∀ f : ℚ, minF ≤ autoFontLoop n bw bh minF fuel f := by
  intro fuel
  induction fuel with
  | zero => intro f; exact le_rfl
  | succ fuel ih =>
    intro f
    simp only [autoFontLoop]
    split
    · exact le_rfl
    · split
      · linarith [not_lt.1 (by assumption : ¬ _)]
      · exact ih (f - 0.5)

/-- Helper: one extra half step of starting size (with one extra unit of
fuel) never decreases the font loop result. -/
theorem autoFontLoop_step (n : ℕ) (bw bh minF f : ℚ) (fuel : ℕ) (h : minF ≤ f) :
    autoFontLoop n bw bh minF fuel f ≤ autoFontLoop n bw bh minF (fuel + 1) (f + 0.5) := by
  have h1 : ¬ (f + 0.5 < minF) := by linarith
  simp only [autoFontLoop, h1, if_false]
  split
  · exact le_trans (autoFontLoop_le n bw bh minF fuel f) (by rw [max_eq_left h]; linarith)
  · have h2 : f + 0.5 - 0.5 = f := by ring
    rw [h2]

/-- Helper: k extra half steps of starting size (with k extra units of fuel)
never decrease the font loop result. -/
theorem autoFontLoop_chain (n : ℕ) (bw bh minF f : ℚ) (fuel : ℕ) (h : minF ≤ f) :
    ∀ k : ℕ, autoFontLoop n bw bh minF fuel f ≤
      autoFontLoop n bw bh minF (fuel + k) (f + k * 0.5) := by
  intro k
  induction k with
  | zero => simp
  | succ k ih =>
    have hmid : minF ≤ f + k * 0.5 := by
      have : (0 : ℚ) ≤ (k : ℚ) * 0.5 := by positivity
      linarith
    have hstep := autoFontLoop_step n bw bh minF (f + k * 0.5) (fuel + k) hmid
    have harith : f + k * 0.5 + 0.5 = f + (k + 1 : ℕ) * 0.5 := by push_cast; ring
    rw [harith] at hstep
    calc autoFontLoop n bw bh minF fuel f ≤ _ := ih
      _ ≤ _ := hstep

/-- Helper: raising the starting size by k half steps raises the fuel bound
by exactly k. -/
theorem fontFuel_add (s2 minF : ℚ) (k : ℕ) (h : minF ≤ s2) :
    fontFuel (s2 + k * 0.5) minF = fontFuel s2 minF + k := by
  unfold fontFuel
  have h1 : (s2 + k * 0.5 - minF) * 2 = (s2 - minF) * 2 + (k : ℚ) := by ring
  have h2 : ⌈(s2 + k * 0.5 - minF) * 2⌉ = ⌈(s2 - minF) * 2⌉ + (k : ℤ) := by
    rw [h1, show ((k : ℚ)) = ((k : ℤ) : ℚ) by push_cast; ring, Int.ceil_add_int]
  have h3 : (0 : ℤ) ≤ ⌈(s2 - minF) * 2⌉ := Int.ceil_nonneg (by linarith)
  rw [h2]
  omega

/-- C5, amended: the auto font-size search is monotone in its starting size
along the half-unit step grid: if the two starting sizes differ by a whole
number of 0.5 steps and both are at least the minimum size, decreasing the
starting size never increases the chosen result.  (The unrestricted
monotonicity of the original claim is refuted by C5_counterexample: starting
sizes on different 0.5-grids can invert the order of the results.) -/
theorem C5_auto_font_monotone_on_grid (text : String) (bw bh s1 s2 minF : ℚ)
    (k : ℕ) (hmin : minF ≤ s2) (hgrid : s1 = s2 + k * 0.5) :
    _calculate_auto_font_size text bw bh s2 minF ≤
      _calculate_auto_font_size text bw bh s1 minF := by
  unfold _calculate_auto_font_size
  by_cases hlen : text.length = 0
  · simp only [hlen, if_true]
    have : (0 : ℚ) ≤ (k : ℚ) * 0.5 := by positivity
    rw [hgrid]; linarith
  · simp only [hlen, if_false]
    rw [hgrid, fontFuel_add s2 minF k hmin]
    exact autoFontLoop_chain text.length bw bh minF s2 (fontFuel s2 minF) hmin k

/-- C5 counterexample: the claim as stated is false.  For the text "A" and
the box 5.335 by 100, starting size 10 yields font 9.5 while the smaller
starting size 9.6 (also at least the minimum 3) yields the larger font 9.6:
decreasing the starting size increased the result. -/
theorem C5_counterexample :
    (3 : ℚ) ≤ 9.6 ∧ (9.6 : ℚ) < 10 ∧
      _calculate_auto_font_size "A" 5.335 100 10 3 = 9.5 ∧
      _calculate_auto_font_size "A" 5.335 100 9.6 3 = 9.6 ∧
      _calculate_auto_font_size "A" 5.335 100 10 3 <
        _calculate_auto_font_size "A" 5.335 100 9.6 3 := by
  have hlen : "A".length = 1 := rfl
  have hf1 : fontFuel 10 3 = 16 := by
    rw [fontFuel, show ((10 : ℚ) - 3) * 2 = 14 by norm_num,
      show ⌈(14 : ℚ)⌉ = 14 by rw [Int.ceil_eq_iff]; norm_num]
    rfl
  have hf2 : fontFuel 9.6 3 = 16 := by
    rw [fontFuel, show ((9.6 : ℚ) - 3) * 2 = 13.2 by norm_num,
      show ⌈(13.2 : ℚ)⌉ = 14 by rw [Int.ceil_eq_iff]; norm_num]
    rfl
  refine ⟨by norm_num, by norm_num, ?_, ?_, ?_⟩
  · rw [_calculate_auto_font_size, hlen, hf1]
    norm_num [autoFontLoop, char_width_coeff, height_coeff]
  · rw [_calculate_auto_font_size, hlen, hf2]
    norm_num [autoFontLoop, char_width_coeff, height_coeff]
  · rw [_calculate_auto_font_size, _calculate_auto_font_size, hlen, hf1, hf2]
    norm_num [autoFontLoop, char_width_coeff, height_coeff]

/-- C5 witness: the amended monotonicity applied at the concrete inputs
text "Hi", box 100 by 100, starting sizes 10 and 9 (two half steps apart,
both at least the minimum 3). -/
theorem C5_witness :
    (3 : ℚ) ≤ 9 ∧ (10 : ℚ) = 9 + (2 : ℕ) * 0.5 ∧
      _calculate_auto_font_size "Hi" 100 100 9 3 ≤
        _calculate_auto_font_size "Hi" 100 100 10 3 :=
  ⟨by norm_num, by norm_num,
    C5_auto_font_monotone_on_grid "Hi" 100 100 10 9 3 2 (by norm_num) (by norm_num)⟩

/-- C10: with every earlier validation stage passing (required positive
dimensions, positive interior, accepted wall modes and text, divider count
2, both positions supplied), validate_inputs accepts exactly when the two
divider positions in millimetres are strictly increasing, each lies at least
the minimum gap from the nearest interior wall, and they are at least the
minimum gap apart; and whenever the mutual distance is below the minimum
gap, validate_inputs raises ValueError, so generation is never invoked with
that state. -/
theorem C10_divider_validation (inputs : Inputs) (l w h p1 p2 : ℚ)
    (modes : WallModes)
    (hl : inputs.length = some l) (hlp : 0 < l)
    (hw : inputs.width = some w) (hwp : 0 < w)
    (hh : inputs.height = some h) (hhp : 0 < h)
    (hLin : 0 < inches_to_mm l - 2 * T_MM)
    (hWin : 0 < inches_to_mm w - 2 * T_MM)
    (hmodes : build_wall_mode inputs = Except.ok modes)
    (htf : checkWallText modes.front inputs.frontTextContent "front" "frontTextContent"
      = Except.ok inputs.frontTextContent)
    (htb : checkWallText modes.back inputs.backTextContent "back" "backTextContent"
      = Except.ok inputs.backTextContent)
    (htl2 : checkWallText modes.left inputs.leftTextContent "left" "leftTextContent"
      = Except.ok inputs.leftTextContent)
    (htr : checkWallText modes.right inputs.rightTextContent "right" "rightTextContent"
      = Except.ok inputs.rightTextContent)
    (hnd : inputs.numDividers = 2)
    (hp1 : inputs.dividerPos1 = some p1)
    (hp2 : inputs.dividerPos2 = some p2) :
    ((∃ params, validate_inputs inputs = Except.ok params) ↔
      (inches_to_mm p1 < inches_to_mm p2 ∧
        DIVIDER_MIN_GAP_MM ≤ inches_to_mm p1 ∧
        inches_to_mm p1 ≤ inches_to_mm w - 2 * T_MM - DIVIDER_MIN_GAP_MM ∧
        DIVIDER_MIN_GAP_MM ≤ inches_to_mm p2 ∧
        inches_to_mm p2 ≤ inches_to_mm w - 2 * T_MM - DIVIDER_MIN_GAP_MM ∧
        DIVIDER_MIN_GAP_MM ≤ inches_to_mm p2 - inches_to_mm p1)) ∧
      (inches_to_mm p2 - inches_to_mm p1 < DIVIDER_MIN_GAP_MM →
        ∃ msg, validate_inputs inputs = Except.error (PyError.valueError msg)) := by
  have h1 : ¬ (l ≤ 0) := not_le.2 hlp
  have h2 : ¬ (w ≤ 0) := not_le.2 hwp
  have h3 : ¬ (h ≤ 0) := not_le.2 hhp
  have h4 : ¬ (inches_to_mm l ≤ 2 * T_MM ∨ inches_to_mm w ≤ 2 * T_MM) := by
    push_neg
    constructor <;> linarith
  refine ⟨⟨?_, ?_⟩, ?_⟩
  · rintro ⟨params, hp⟩
    by_cases c1 : inches_to_mm p1 < inches_to_mm p2
    · by_cases c2 : inches_to_mm p1 < DIVIDER_MIN_GAP_MM ∨
          inches_to_mm p1 > inches_to_mm w - 2 * T_MM - DIVIDER_MIN_GAP_MM
      · exfalso
        simp [validate_inputs, requirePosDim, hl, hw, hh, h1, h2, h3, h4, hmodes,
          htf, htb, htl2, htr, hnd, hp1, hp2, c1, c2, Bind.bind, Except.bind] at hp
      · by_cases c3 : inches_to_mm p2 < DIVIDER_MIN_GAP_MM ∨
            inches_to_mm p2 > inches_to_mm w - 2 * T_MM - DIVIDER_MIN_GAP_MM
        · exfalso
          simp [validate_inputs, requirePosDim, hl, hw, hh, h1, h2, h3, h4, hmodes,
            htf, htb, htl2, htr, hnd, hp1, hp2, c1, c2, c3, Bind.bind, Except.bind] at hp
        · by_cases c4 : inches_to_mm p2 - inches_to_mm p1 < DIVIDER_MIN_GAP_MM
          · exfalso
            simp [validate_inputs, requirePosDim, hl, hw, hh, h1, h2, h3, h4, hmodes,
              htf, htb, htl2, htr, hnd, hp1, hp2, c1, c2, c3, c4, Bind.bind, Except.bind] at hp
          · push_neg at c2 c3
            exact ⟨c1, c2.1, c2.2, c3.1, c3.2, not_lt.1 c4⟩
    · exfalso
      simp [validate_inputs, requirePosDim, hl, hw, hh, h1, h2, h3, h4, hmodes,
        htf, htb, htl2, htr, hnd, hp1, hp2, c1, Bind.bind, Except.bind] at hp
  · rintro ⟨c1, c2a, c2b, c3a, c3b, c4⟩
    have c2 : ¬ (inches_to_mm p1 < DIVIDER_MIN_GAP_MM ∨
        inches_to_mm p1 > inches_to_mm w - 2 * T_MM - DIVIDER_MIN_GAP_MM) := by
      push_neg
      exact ⟨c2a, c2b⟩
    have c3 : ¬ (inches_to_mm p2 < DIVIDER_MIN_GAP_MM ∨
        inches_to_mm p2 > inches_to_mm w - 2 * T_MM - DIVIDER_MIN_GAP_MM) := by
      push_neg
      exact ⟨c3a, c3b⟩
    have c4n : ¬ (inches_to_mm p2 - inches_to_mm p1 < DIVIDER_MIN_GAP_MM) := not_lt.2 c4
    simp [validate_inputs, requirePosDim, hl, hw, hh, h1, h2, h3, h4, hmodes,
      htf, htb, htl2, htr, hnd, hp1, hp2, c1, c2, c3, c4n, Bind.bind, Except.bind]
    exact ⟨_, rfl⟩
  · intro hclose
    by_cases c1 : inches_to_mm p1 < inches_to_mm p2
    · by_cases c2 : inches_to_mm p1 < DIVIDER_MIN_GAP_MM ∨
          inches_to_mm p1 > inches_to_mm w - 2 * T_MM - DIVIDER_MIN_GAP_MM
      · simp [validate_inputs, requirePosDim, hl, hw, hh, h1, h2, h3, h4, hmodes,
          htf, htb, htl2, htr, hnd, hp1, hp2, c1, c2, Bind.bind, Except.bind]
      · by_cases c3 : inches_to_mm p2 < DIVIDER_MIN_GAP_MM ∨
            inches_to_mm p2 > inches_to_mm w - 2 * T_MM - DIVIDER_MIN_GAP_MM
        · simp [validate_inputs, requirePosDim, hl, hw, hh, h1, h2, h3, h4, hmodes,
            htf, htb, htl2, htr, hnd, hp1, hp2, c1, c2, c3, Bind.bind, Except.bind]
        · simp [validate_inputs, requirePosDim, hl, hw, hh, h1, h2, h3, h4, hmodes,
            htf, htb, htl2, htr, hnd, hp1, hp2, c1, c2, c3, hclose, Bind.bind, Except.bind]
    · simp [validate_inputs, requirePosDim, hl, hw, hh, h1, h2, h3, h4, hmodes,
        htf, htb, htl2, htr, hnd, hp1, hp2, c1, Bind.bind, Except.bind]

/-- C10 witness: scenario C, a 6 by 4 by 3 inch box with two dividers at 0.5
and 0.6 inches (2.54 mm apart, below the 6 mm minimum gap), is rejected by
validate_inputs with a ValueError. -/
theorem C10_witness :
    inches_to_mm 0.6 - inches_to_mm 0.5 < DIVIDER_MIN_GAP_MM ∧
      ∃ msg, validate_inputs scenarioC_inputs = Except.error (PyError.valueError msg) := by
  have hclose : inches_to_mm (0.6 : ℚ) - inches_to_mm 0.5 < DIVIDER_MIN_GAP_MM := by
    norm_num [inches_to_mm, INCH_TO_MM, DIVIDER_MIN_GAP_MM, T_MM]
  refine ⟨hclose, ?_⟩
  refine (C10_divider_validation scenarioC_inputs 6.0 4.0 3.0 0.5 0.6
    ⟨"none", "none", "none", "none"⟩ rfl (by norm_num) rfl (by norm_num) rfl (by norm_num)
    ?_ ?_ rfl rfl rfl rfl rfl rfl rfl rfl).2 hclose
  · norm_num [inches_to_mm, INCH_TO_MM, T_MM]
  · norm_num [inches_to_mm, INCH_TO_MM, T_MM]

/-- C9, amended: under the precondition that the corner features stay within
the edge margins (nonnegative kerf below the material thickness, and both
base dimensions exceeding twice the margin plus twice the drawn feature
width), the wall outline is a closed path (first and last vertices both the
origin) consisting of the perimeter with exactly two outward tab detours on
the right edge, two outward tab detours on the bottom edge and two inward
pocket detours on the left edge, all well ordered and nondegenerate, the top
edge plain; the floor outline likewise consists of the perimeter with
exactly two inward pocket detours on each of its four edges, but its vertex
list is not closed: the source emits its last vertex at (0, margin) and
relies on the closing Z command, so its first and last vertices differ
(this corrects the first-equals-last closure part of the claim for the
floor). -/
theorem C9_outline_structure (base_w base_h kerf : ℚ)
    (hk0 : 0 ≤ kerf) (hkT : kerf < T_MM)
    (hbw : 2 * MIN_EDGE_MARGIN_MM + 2 * finger_feature_w_draw_spec kerf < base_w)
    (hbh : 2 * MIN_EDGE_MARGIN_MM + 2 * finger_feature_w_draw_spec kerf < base_h) :
    (∃ fw tab_d pocket_d a1 b1 a2 b2 cc1 dd1 cc2 dd2 : ℚ,
      fw = finger_feature_w_draw_spec kerf ∧
      tab_d = finger_tab_depth_draw_spec kerf ∧
      pocket_d = finger_pocket_depth_draw_spec kerf ∧
      _wall_outline C_spec base_w base_h kerf = Except.ok (Outline.path
        [((0 : ℚ), (0 : ℚ)), (base_w, 0),
         (base_w, a2), (base_w + tab_d, a2), (base_w + tab_d, b2), (base_w, b2),
         (base_w, a1), (base_w + tab_d, a1), (base_w + tab_d, b1), (base_w, b1),
         (base_w, base_h),
         (dd2, base_h), (dd2, base_h + tab_d), (cc2, base_h + tab_d), (cc2, base_h),
         (dd1, base_h), (dd1, base_h + tab_d), (cc1, base_h + tab_d), (cc1, base_h),
         (0, base_h),
         (0, b1), (pocket_d, b1), (pocket_d, a1), (0, a1),
         (0, b2), (pocket_d, b2), (pocket_d, a2), (0, a2),
         (0, 0)]) ∧
      0 < tab_d ∧ 0 < pocket_d ∧ pocket_d < base_w ∧
      0 < a1 ∧ a1 < b1 ∧ b1 < a2 ∧ a2 < b2 ∧ b2 < base_h ∧
      0 < cc1 ∧ cc1 < dd1 ∧ dd1 < cc2 ∧ cc2 < dd2 ∧ dd2 < base_w) ∧
    (∃ fw pocket_d xL0 xL1 xR0 xR1 yT0 yT1 yB0 yB1 : ℚ,
      fw = finger_feature_w_draw_spec kerf ∧
      pocket_d = finger_pocket_depth_draw_spec kerf ∧
      _floor_outline C_spec base_w base_h kerf = Except.ok (Outline.path
        [((0 : ℚ), (0 : ℚ)),
         (xL0, 0), (xL0, pocket_d), (xL1, pocket_d), (xL1, 0),
         (xR0, 0), (xR0, pocket_d), (xR1, pocket_d), (xR1, 0),
         (base_w, 0),
         (base_w, yT0), (base_w - pocket_d, yT0), (base_w - pocket_d, yT1), (base_w, yT1),
         (base_w, yB0), (base_w - pocket_d, yB0), (base_w - pocket_d, yB1), (base_w, yB1),
         (base_w, base_h),
         (xR1, base_h), (xR1, base_h - pocket_d), (xR0, base_h - pocket_d), (xR0, base_h),
         (xL1, base_h), (xL1, base_h - pocket_d), (xL0, base_h - pocket_d), (xL0, base_h),
         (0, base_h),
         (0, yB1), (pocket_d, yB1), (pocket_d, yB0), (0, yB0),
         (0, yT1), (pocket_d, yT1), (pocket_d, yT0), (0, yT0)]) ∧
      0 < pocket_d ∧ pocket_d < xL0 ∧ pocket_d < yT0 ∧
      0 < xL0 ∧ xL0 < xL1 ∧ xL1 < xR0 ∧ xR0 < xR1 ∧ xR1 < base_w ∧
      0 < yT0 ∧ yT0 < yT1 ∧ yT1 < yB0 ∧ yB0 < yB1 ∧ yB1 < base_h ∧
      ((0 : ℚ), (0 : ℚ)) ≠ ((0 : ℚ), yT0)) := by
  have hm : MIN_EDGE_MARGIN_MM = 6 := by norm_num [MIN_EDGE_MARGIN_MM, T_MM]
  have hfw : finger_feature_w_draw_spec kerf = 12 + kerf := by
    norm_num [finger_feature_w_draw_spec, external_cut_draw_dim, TAB_WIDTH_MM]
  have htab : finger_tab_depth_draw_spec kerf = 3 + kerf := by
    norm_num [finger_tab_depth_draw_spec, external_cut_draw_dim, T_MM]
  have hpd : finger_pocket_depth_draw_spec kerf = 3 - kerf := by
    norm_num [finger_pocket_depth_draw_spec, internal_cut_draw_dim, T_MM]
  have hT : T_MM = 3 := by norm_num [T_MM]
  constructor
  · refine ⟨finger_feature_w_draw_spec kerf, finger_tab_depth_draw_spec kerf,
      finger_pocket_depth_draw_spec kerf,
      MIN_EDGE_MARGIN_MM + finger_feature_w_draw_spec kerf / 2 - finger_feature_w_draw_spec kerf / 2,
      MIN_EDGE_MARGIN_MM + finger_feature_w_draw_spec kerf / 2 + finger_feature_w_draw_spec kerf / 2,
      base_h - (MIN_EDGE_MARGIN_MM + finger_feature_w_draw_spec kerf / 2) - finger_feature_w_draw_spec kerf / 2,
      base_h - (MIN_EDGE_MARGIN_MM + finger_feature_w_draw_spec kerf / 2) + finger_feature_w_draw_spec kerf / 2,
      MIN_EDGE_MARGIN_MM + finger_feature_w_draw_spec kerf / 2 - finger_feature_w_draw_spec kerf / 2,
      MIN_EDGE_MARGIN_MM + finger_feature_w_draw_spec kerf / 2 + finger_feature_w_draw_spec kerf / 2,
      base_w - (MIN_EDGE_MARGIN_MM + finger_feature_w_draw_spec kerf / 2) - finger_feature_w_draw_spec kerf / 2,
      base_w - (MIN_EDGE_MARGIN_MM + finger_feature_w_draw_spec kerf / 2) + finger_feature_w_draw_spec kerf / 2,
      rfl, rfl, rfl, ?_, ?_, ?_, ?_, ?_, ?_, ?_, ?_, ?_, ?_, ?_, ?_, ?_, ?_⟩
    · simp [_wall_outline, wallOutlineVertices, _corner_centers, C_spec, C_getattr,
        Bind.bind, Except.bind, pure, Except.pure]
    all_goals linarith
  · refine ⟨finger_feature_w_draw_spec kerf, finger_pocket_depth_draw_spec kerf,
      MIN_EDGE_MARGIN_MM,
      MIN_EDGE_MARGIN_MM + finger_feature_w_draw_spec kerf,
      base_w - MIN_EDGE_MARGIN_MM - finger_feature_w_draw_spec kerf,
      base_w - MIN_EDGE_MARGIN_MM,
      MIN_EDGE_MARGIN_MM,
      MIN_EDGE_MARGIN_MM + finger_feature_w_draw_spec kerf,
      base_h - MIN_EDGE_MARGIN_MM - finger_feature_w_draw_spec kerf,
      base_h - MIN_EDGE_MARGIN_MM,
      rfl, rfl, ?_, ?_, ?_, ?_, ?_, ?_, ?_, ?_, ?_, ?_, ?_, ?_, ?_, ?_, ?_⟩
    · simp [_floor_outline, floorOutlineVertices, C_spec, C_getattr,
        Bind.bind, Except.bind, pure, Except.pure]
    · linarith
    · linarith
    · linarith
    · linarith
    · linarith
    · linarith
    · linarith
    · linarith
    · linarith
    · linarith
    · linarith
    · linarith
    · linarith
    · intro hcontra
      rw [Prod.mk.injEq, hm] at hcontra
      norm_num at hcontra

/-- C9 counterexample: at base 100 by 80 with kerf 0.1 (inside the claim's
precondition), the floor outline's first vertex is the origin but its last
vertex is (0, 6): the source closes the floor path only with the trailing Z
command, so first and last vertices do not coincide, refuting the
first-equals-last closure part of the claim for the floor. -/
theorem C9_counterexample :
    ∃ l : List Pt, _floor_outline C_spec 100 80 0.1 = Except.ok (Outline.path l) ∧
      l.head? = some ((0 : ℚ), (0 : ℚ)) ∧ l.getLast? = some ((0 : ℚ), (6 : ℚ)) ∧
      l.head? ≠ l.getLast? ∧
      (0 : ℚ) ≤ 0.1 ∧ (0.1 : ℚ) < T_MM ∧
      2 * MIN_EDGE_MARGIN_MM + 2 * finger_feature_w_draw_spec 0.1 < 100 ∧
      2 * MIN_EDGE_MARGIN_MM + 2 * finger_feature_w_draw_spec 0.1 < 80 := by
  have hm : MIN_EDGE_MARGIN_MM = 6 := by norm_num [MIN_EDGE_MARGIN_MM, T_MM]
  have hh : (floorOutlineVertices MIN_EDGE_MARGIN_MM (finger_feature_w_draw_spec 0.1)
      (finger_pocket_depth_draw_spec 0.1) 100 80).head? = some ((0 : ℚ), (0 : ℚ)) := rfl
  have hl2 : (floorOutlineVertices MIN_EDGE_MARGIN_MM (finger_feature_w_draw_spec 0.1)
      (finger_pocket_depth_draw_spec 0.1) 100 80).getLast?
      = some ((0 : ℚ), MIN_EDGE_MARGIN_MM) := rfl
  refine ⟨floorOutlineVertices MIN_EDGE_MARGIN_MM (finger_feature_w_draw_spec 0.1)
      (finger_pocket_depth_draw_spec 0.1) 100 80, rfl, hh, ?_, ?_, by norm_num,
      by norm_num [T_MM], ?_, ?_⟩
  · rw [hl2, hm]
  · rw [hh, hl2, hm]
    intro heq
    have := Option.some.inj heq
    have h0 : (0 : ℚ) = 6 := congrArg Prod.snd this
    norm_num at h0
  · norm_num [MIN_EDGE_MARGIN_MM, T_MM, finger_feature_w_draw_spec,
      external_cut_draw_dim, TAB_WIDTH_MM]
  · norm_num [MIN_EDGE_MARGIN_MM, T_MM, finger_feature_w_draw_spec,
      external_cut_draw_dim, TAB_WIDTH_MM]

/-- C9 witness: the amended theorem applied at base 100 by 80 with kerf 0.1;
in particular the wall outline there is a closed vertex path. -/
theorem C9_witness :
    ∃ l : List Pt, _wall_outline C_spec 100 80 0.1 = Except.ok (Outline.path l) ∧
      l.head? = some ((0 : ℚ), (0 : ℚ)) ∧ l.head? = l.getLast? := by
  obtain ⟨⟨fw, tab_d, pocket_d, a1, b1, a2, b2, cc1, dd1, cc2, dd2, -, -, -, heval,
      -, -, -, -, -, -, -, -, -, -, -, -, -⟩, -⟩ :=
    C9_outline_structure 100 80 0.1 (by norm_num) (by norm_num [T_MM])
      (by norm_num [MIN_EDGE_MARGIN_MM, T_MM, finger_feature_w_draw_spec,
        external_cut_draw_dim, TAB_WIDTH_MM])
      (by norm_num [MIN_EDGE_MARGIN_MM, T_MM, finger_feature_w_draw_spec,
        external_cut_draw_dim, TAB_WIDTH_MM])
  exact ⟨_, heval, rfl, rfl⟩

/-- Helper: membership through stable insertion. -/
theorem mem_insertDescH {p q : PackItem} :
    ∀ l : List PackItem, q ∈ insertDescH p l ↔ q = p ∨ q ∈ l := by
  intro l
  induction l with
  | nil => simp [insertDescH]
  | cons r rest ih =>
    simp only [insertDescH]
    split
    · simp only [List.mem_cons, ih]
      tauto
    · simp only [List.mem_cons]

/-- Helper: membership through the stable descending sort. -/
theorem mem_sortByHDesc {q : PackItem} {l : List PackItem} :
    q ∈ sortByHDesc l ↔ q ∈ l := by
  have key : ∀ (l2 : List PackItem) (acc : List PackItem),
      q ∈ l2.foldl (fun acc p => insertDescH p acc) acc ↔ q ∈ acc ∨ q ∈ l2 := by
    intro l2
    induction l2 with
    | nil => simp
    | cons p rest ih =>
      intro acc
      simp only [List.foldl_cons, ih, mem_insertDescH, List.mem_cons]
      tauto
  simpa using key l []

/-- Helper soundness invariant for the placement loop: starting from a
cursor state at least the gap in from the sheet origin, a successful run
places every piece inside the sheet horizontally-or-flush-left and above
the bottom bound, in the current row beyond the cursor or strictly below
the current row, and all gap-padded boxes pairwise separated. -/
theorem shelfPackGo_sound (sheet_w sheet_h gap : ℚ) (hgap : 0 ≤ gap) :
    ∀ (items : List PackItem) (x y row_h : ℚ) (pls : List Placement),
      (∀ p ∈ items, 0 < p.w ∧ 0 < p.h) →
      gap ≤ x → gap ≤ y → 0 ≤ row_h →
      shelfPackGo sheet_w sheet_h gap items x y row_h = some pls →
      (∀ b ∈ packBoxes items pls,
        gap ≤ b.x ∧ (b.x + b.w + gap ≤ sheet_w ∨ b.x = gap) ∧ y ≤ b.y ∧
          b.y + b.h + gap ≤ sheet_h ∧ (∃ p ∈ items, b.w = p.w ∧ b.h = p.h) ∧
          (b.y = y ∧ x ≤ b.x ∨ y + row_h + gap ≤ b.y)) ∧
      (packBoxes items pls).Pairwise (boxesSeparated gap) := by
  intro items
  induction items with
  | nil =>
    intro x y row_h pls hpos hx hy hr heq
    simp only [shelfPackGo, Option.some.injEq] at heq
    subst heq
    simp [packBoxes]
  | cons p rest ih =>
    intro x y row_h pls hpos hx hy hr heq
    have hposp := hpos p (List.mem_cons_self p rest)
    have hposr : ∀ q ∈ rest, 0 < q.w ∧ 0 < q.h :=
      fun q hq => hpos q (List.mem_cons_of_mem p hq)
    simp only [shelfPackGo] at heq
    by_cases hwrap : x + p.w + gap > sheet_w
    · simp only [hwrap, if_true, if_false, ite_true, ite_false] at heq
      by_cases hfail : y + row_h + gap + p.h + gap > sheet_h
      · simp [hfail] at heq
      · simp only [hfail, if_false, ite_false] at heq
        rw [Option.map_eq_some'] at heq
        obtain ⟨pls2, hgo, hcons⟩ := heq
        subst hcons
        obtain ⟨ihp, ihpair⟩ := ih (gap + p.w + gap) (y + row_h + gap) (max 0 p.h) pls2
          hposr (by linarith [hposp.1]) (by linarith) (le_max_left 0 p.h) hgo
        have hpb : packBoxes (p :: rest) ((⟨p.name, gap, y + row_h + gap, 0⟩ : Placement) :: pls2)
            = ⟨gap, y + row_h + gap, p.w, p.h⟩ :: packBoxes rest pls2 := rfl
        constructor
        · intro b hb
          rw [hpb, List.mem_cons] at hb
          rcases hb with rfl | hb2
          · refine ⟨le_refl gap, Or.inr rfl, ?_, ?_,
              ⟨p, List.mem_cons_self p rest, rfl, rfl⟩, Or.inr ?_⟩
            · show y ≤ y + row_h + gap
              linarith
            · show y + row_h + gap + p.h + gap ≤ sheet_h
              linarith [not_lt.1 hfail]
            · show y + row_h + gap ≤ y + row_h + gap
              linarith
          · obtain ⟨h1, h2, h3, h4, h5, h6⟩ := ihp b hb2
            refine ⟨h1, h2, by linarith, h4, ?_, ?_⟩
            · obtain ⟨q, hq, hqe⟩ := h5
              exact ⟨q, List.mem_cons_of_mem p hq, hqe⟩
            · rcases h6 with ⟨hby, _⟩ | hdown
              · exact Or.inr (by linarith [hby.ge, hby.le])
              · refine Or.inr ?_
                have : (0 : ℚ) ≤ max 0 p.h := le_max_left 0 p.h
                linarith
        · rw [hpb]
          refine List.Pairwise.cons ?_ ihpair
          intro b hb
          obtain ⟨h1, h2, h3, h4, h5, h6⟩ := ihp b hb
          rcases h6 with ⟨hby, hbx⟩ | hdown
          · exact Or.inl (by simpa using hbx)
          · refine Or.inr (Or.inr (Or.inl ?_))
            have hph : p.h ≤ max 0 p.h := le_max_right 0 p.h
            show y + row_h + gap + p.h + gap ≤ b.y
            linarith
    · simp only [hwrap, if_true, if_false, ite_true, ite_false] at heq
      by_cases hfail : y + p.h + gap > sheet_h
      · simp [hfail] at heq
      · simp only [hfail, if_false, ite_false] at heq
        rw [Option.map_eq_some'] at heq
        obtain ⟨pls2, hgo, hcons⟩ := heq
        subst hcons
        obtain ⟨ihp, ihpair⟩ := ih (x + p.w + gap) y (max row_h p.h) pls2
          hposr (by linarith [hposp.1]) hy (le_trans hr (le_max_left row_h p.h)) hgo
        have hpb : packBoxes (p :: rest) ((⟨p.name, x, y, 0⟩ : Placement) :: pls2)
            = ⟨x, y, p.w, p.h⟩ :: packBoxes rest pls2 := rfl
        constructor
        · intro b hb
          rw [hpb, List.mem_cons] at hb
          rcases hb with rfl | hb2
          · refine ⟨hx, Or.inl ?_, le_refl y, ?_,
              ⟨p, List.mem_cons_self p rest, rfl, rfl⟩, Or.inl ⟨rfl, le_refl x⟩⟩
            · show x + p.w + gap ≤ sheet_w
              linarith [not_lt.1 hwrap]
            · show y + p.h + gap ≤ sheet_h
              linarith [not_lt.1 hfail]
          · obtain ⟨h1, h2, h3, h4, h5, h6⟩ := ihp b hb2
            refine ⟨h1, h2, h3, h4, ?_, ?_⟩
            · obtain ⟨q, hq, hqe⟩ := h5
              exact ⟨q, List.mem_cons_of_mem p hq, hqe⟩
            · rcases h6 with ⟨hby, hbx⟩ | hdown
              · exact Or.inl ⟨hby, by linarith [hposp.1]⟩
              · refine Or.inr ?_
                have : row_h ≤ max row_h p.h := le_max_left row_h p.h
                linarith
        · rw [hpb]
          refine List.Pairwise.cons ?_ ihpair
          intro b hb
          obtain ⟨h1, h2, h3, h4, h5, h6⟩ := ihp b hb
          rcases h6 with ⟨hby, hbx⟩ | hdown
          · exact Or.inl (by simpa using hbx)
          · refine Or.inr (Or.inr (Or.inl ?_))
            have hph : p.h ≤ max row_h p.h := le_max_right row_h p.h
            show y + p.h + gap ≤ b.y
            linarith

/-- C3, amended: for every piece list with positive widths and heights for
which shelf_pack on the fixed sheet returns a placement list, (a) the
gap-padded boxes of any two distinct placed pieces do not overlap; and (b)
provided additionally that every piece fits a packing row width-wise
(gap + w + gap at most the sheet width), every placed piece's rectangle lies
within the sheet.  (The original unrestricted in-bounds part is refuted by
C3_counterexample: a piece wider than the sheet is still placed, flush left,
and overhangs the right sheet edge.) -/
theorem C3_pack_separation_and_bounds (pieces : List PackItem) (pls : List Placement)
    (hpos : ∀ p ∈ pieces, 0 < p.w ∧ 0 < p.h)
    (hpack : shelf_pack pieces SHEET_W_MM SHEET_H_MM PART_GAP_MM = some pls) :
    (packBoxes (sortByHDesc pieces) pls).Pairwise (boxesSeparated PART_GAP_MM) ∧
      ((∀ p ∈ pieces, PART_GAP_MM + p.w + PART_GAP_MM ≤ SHEET_W_MM) →
        ∀ b ∈ packBoxes (sortByHDesc pieces) pls, boxInSheet SHEET_W_MM SHEET_H_MM b) := by
  have hgap : (0 : ℚ) ≤ PART_GAP_MM := by norm_num [PART_GAP_MM]
  have hgap2 : (0 : ℚ) < PART_GAP_MM := by norm_num [PART_GAP_MM]
  have hpos2 : ∀ p ∈ sortByHDesc pieces, 0 < p.w ∧ 0 < p.h :=
    fun p hp => hpos p (mem_sortByHDesc.1 hp)
  obtain ⟨hprops, hpair⟩ := shelfPackGo_sound SHEET_W_MM SHEET_H_MM PART_GAP_MM hgap
    (sortByHDesc pieces) PART_GAP_MM PART_GAP_MM 0 pls hpos2 le_rfl le_rfl le_rfl hpack
  refine ⟨hpair, ?_⟩
  intro hfit b hb
  obtain ⟨h1, h2, h3, h4, h5, _⟩ := hprops b hb
  obtain ⟨q, hq, hqw, hqh⟩ := h5
  have hfitq := hfit q (mem_sortByHDesc.1 hq)
  refine ⟨by linarith, ?_, by linarith, by linarith⟩
  rcases h2 with h2a | h2b
  · linarith
  · rw [h2b, hqw]
    linarith

/-- C3 counterexample: the claim as stated is false.  The single piece of
width 400 and height 10 (both positive) is accepted by shelf_pack, but its
placed rectangle reaches x = 402 mm, beyond the 304.8 mm sheet width: the
wrap step never re-checks the width, so an over-wide piece is placed flush
left and overhangs the sheet. -/
theorem C3_counterexample :
    (0 : ℚ) < 400 ∧ (0 : ℚ) < 10 ∧
      shelf_pack [⟨"p", 400, 10⟩] SHEET_W_MM SHEET_H_MM PART_GAP_MM
        = some [⟨"p", 2, 4, 0⟩] ∧
      packBoxes (sortByHDesc [⟨"p", 400, 10⟩]) [⟨"p", 2, 4, 0⟩] = [⟨2, 4, 400, 10⟩] ∧
      ¬ boxInSheet SHEET_W_MM SHEET_H_MM ⟨2, 4, 400, 10⟩ := by
  refine ⟨by norm_num, by norm_num, ?_, ?_, ?_⟩
  · norm_num [shelf_pack, sortByHDesc, insertDescH, shelfPackGo,
      SHEET_W_MM, SHEET_H_MM, PART_GAP_MM, INCH_TO_MM]
  · rfl
  · intro hcontra
    obtain ⟨-, h2, -, -⟩ := hcontra
    norm_num [SHEET_W_MM, INCH_TO_MM] at h2

/-- C3 witness: the amended theorem applied to two concrete pieces that
pack successfully; both conclusions are obtained at that input. -/
theorem C3_witness :
    (packBoxes (sortByHDesc [⟨"a", 50, 60⟩, ⟨"b", 40, 30⟩])
        [⟨"a", 2, 2, 0⟩, ⟨"b", 54, 2, 0⟩]).Pairwise (boxesSeparated PART_GAP_MM) ∧
      ((∀ p ∈ [(⟨"a", 50, 60⟩ : PackItem), ⟨"b", 40, 30⟩],
          PART_GAP_MM + p.w + PART_GAP_MM ≤ SHEET_W_MM) →
        ∀ b ∈ packBoxes (sortByHDesc [⟨"a", 50, 60⟩, ⟨"b", 40, 30⟩])
            [⟨"a", 2, 2, 0⟩, ⟨"b", 54, 2, 0⟩],
          boxInSheet SHEET_W_MM SHEET_H_MM b) :=
  C3_pack_separation_and_bounds [⟨"a", 50, 60⟩, ⟨"b", 40, 30⟩]
    [⟨"a", 2, 2, 0⟩, ⟨"b", 54, 2, 0⟩]
    (by
      intro p hp
      rcases List.mem_cons.1 hp with h | hp2
      · rw [h]; norm_num
      · rcases List.mem_cons.1 hp2 with h | hp3
        · rw [h]; norm_num
        · simp at hp3)
    (by norm_num [shelf_pack, sortByHDesc, insertDescH, shelfPackGo,
      SHEET_W_MM, SHEET_H_MM, PART_GAP_MM, INCH_TO_MM])

/-- Helper: the placement loop returns none exactly when the claim's
height-failure predicate holds of the same walk. -/
theorem shelfPackGo_none_iff (sheet_w sheet_h gap : ℚ) :
    ∀ (items : List PackItem) (x y row_h : ℚ),
      shelfPackGo sheet_w sheet_h gap items x y row_h = none ↔
        rowPlacementExceedsHeight sheet_w sheet_h gap items x y row_h := by
  intro items
  induction items with
  | nil => intro x y row_h; simp [shelfPackGo, rowPlacementExceedsHeight]
  | cons p rest ih =>
    intro x y row_h
    simp only [shelfPackGo, rowPlacementExceedsHeight]
    by_cases hwrap : x + p.w + gap > sheet_w
    · simp only [hwrap, if_true, ite_true]
      by_cases hfail : y + row_h + gap + p.h + gap > sheet_h
      · simp [hfail]
      · simp [hfail, Option.map_eq_none', ih]
    · simp only [hwrap, if_false, ite_false]
      by_cases hfail : y + p.h + gap > sheet_h
      · simp [hfail]
      · simp [hfail, Option.map_eq_none', ih]

/-- C4: shelf_pack returns none exactly when, during the greedy walk over
the height-sorted pieces, some piece's row placement (after any row wrap)
would exceed the sheet height; in particular a piece wider than the sheet
never by itself causes failure (any single piece whose height fits below
two leading gaps is placed, whatever its width); and whenever the built
piece set fails to pack, generate_svg raises the packing ValueError and
produces no drawing. -/
theorem C4_pack_none_iff_height_failure :
    (∀ (pieces : List PackItem) (sheet_w sheet_h gap : ℚ),
      shelf_pack pieces sheet_w sheet_h gap = none ↔
        shelfPackFailsOnHeight pieces sheet_w sheet_h gap) ∧
      (∀ (nm : String) (w h : ℚ), 0 < h →
        PART_GAP_MM + PART_GAP_MM + h + PART_GAP_MM ≤ SHEET_H_MM →
        (shelf_pack [⟨nm, w, h⟩] SHEET_W_MM SHEET_H_MM PART_GAP_MM).isSome = true) ∧
      ∀ (env : ConstantsEnv) (params : Params) (pieces : List Piece),
        build_pieces env params = Except.ok pieces →
        shelf_pack (pieces.map toPackItem) SHEET_W_MM SHEET_H_MM PART_GAP_MM = none →
        generate_svg env params = Except.error
          (PyError.valueError "Parts do not fit on one 12x18 sheet (packing failed).") := by
  refine ⟨?_, ?_, ?_⟩
  · intro pieces sheet_w sheet_h gap
    exact shelfPackGo_none_iff sheet_w sheet_h gap (sortByHDesc pieces) gap gap 0
  · intro nm w h hh hfit
    have hgap : (0 : ℚ) < PART_GAP_MM := by norm_num [PART_GAP_MM]
    show (shelfPackGo SHEET_W_MM SHEET_H_MM PART_GAP_MM [⟨nm, w, h⟩]
      PART_GAP_MM PART_GAP_MM 0).isSome = true
    simp only [shelfPackGo]
    by_cases hwrap : PART_GAP_MM + w + PART_GAP_MM > SHEET_W_MM
    · have hfail : ¬ (PART_GAP_MM + 0 + PART_GAP_MM + h + PART_GAP_MM > SHEET_H_MM) := by
        linarith
      simp [hwrap, hfail]
      try linarith
    · have hfail : ¬ (PART_GAP_MM + h + PART_GAP_MM > SHEET_H_MM) := by linarith
      simp [hwrap, hfail]
      try linarith
  · intro env params pieces hbuild hpack
    simp [generate_svg, hbuild, hpack, Bind.bind, Except.bind]

/-- C4 witness: scenario B, a 20 inch cube under the spec-modelled
constants: the pieces build successfully, fail to pack on the fixed sheet,
and generate_svg raises the packing ValueError. -/
theorem C4_witness :
    build_pieces C_spec scenarioB_params = Except.ok scenarioB_pieces ∧
      shelf_pack (scenarioB_pieces.map toPackItem) SHEET_W_MM SHEET_H_MM PART_GAP_MM
        = none ∧
      generate_svg C_spec scenarioB_params = Except.error
        (PyError.valueError "Parts do not fit on one 12x18 sheet (packing failed).") := by
  have hbuild : build_pieces C_spec scenarioB_params = Except.ok scenarioB_pieces := by
    with_unfolding_all rfl
  have hpack : shelf_pack (scenarioB_pieces.map toPackItem) SHEET_W_MM SHEET_H_MM
      PART_GAP_MM = none := by
    with_unfolding_all rfl
  exact ⟨hbuild, hpack,
    C4_pack_none_iff_height_failure.2.2 C_spec scenarioB_params scenarioB_pieces hbuild hpack⟩

/-- C2: scenario A evaluated on the code.  validate_inputs accepts the
scenario input, but generate_svg as shipped raises AttributeError on the
missing constants attribute before any drawing is produced, contradicting
the claimed success; under the spec-modelled constants the intended
behaviour does hold: generation succeeds, the front and left walls each
carry a text engrave, the left wall's text is rotated 90 degrees and the
front wall's is unrotated. -/
theorem C2_scenarioA_evaluation :
    validate_inputs scenarioA_inputs = Except.ok scenarioA_params ∧
      generate_svg C_actual scenarioA_params
        = Except.error (PyError.attributeError "finger_tab_depth_draw") ∧
      (generate_svg C_spec scenarioA_params).isOk = true ∧
      pieceHasTextEngrave (run_pieces C_spec scenarioA_params) "wall_front" "Incline" 0
        = true ∧
      pieceHasTextEngrave (run_pieces C_spec scenarioA_params) "wall_left" "Left" 90
        = true := by
  refine ⟨?_, rfl, ?_, ?_, ?_⟩
  · with_unfolding_all rfl
  · with_unfolding_all rfl
  · with_unfolding_all rfl
  · with_unfolding_all rfl
